import Mathlib

/-!
A shallow embedding of the orchestration layer of the `uv` Python package
manager excerpt: CLI option normalization (`crates/uv-cli/src/options.rs`),
target-platform modelling (`crates/uv-configuration/src/target_triple.rs`),
static dependency metadata (`crates/uv-distribution-types/src/dependency_metadata.rs`),
and the `pip install` / `pip uninstall` command drivers
(`crates/uv/src/commands/pip/install.rs`, `crates/uv/src/commands/pip/uninstall.rs`).

Pure Rust functions are translated to Lean functions; the command drivers are
translated to explicit state-passing functions over oracle records that stand
for the external collaborators (interpreter discovery, resolver, installer,
registry client), each fallible call becoming an `Except` value.  Terminal
styling (ANSI color codes) on diagnostic strings is not modelled: messages are
embedded as their plain text.
-/

namespace Uv

/-- An error produced by the pipeline (Rust `anyhow::Error`), carried as its
rendered message. -/
abbrev UvError := String

/-- Process exit status of a `uv` command (crate `uv`, `ExitStatus`). -/
inductive ExitStatus where
  | success
  | failure
  | error
deriving DecidableEq, Repr

/-! ## Option normalization (`crates/uv-cli/src/options.rs`) -/

/-- The fatal outcome of `flag` on a conflicting pair: the Rust code prints a
message to stderr and calls `std::process::exit(2)`.  We record the exit code
and the message. -/
structure FlagFatal where
  exitCode : Nat
  message : String
deriving DecidableEq, Repr

/-- The stderr message produced by `flag` for a conflicting `(true, true)`
pair, from `options.rs` lines 21-29 (styling stripped). -/
def flagConflictMessage (name : String) : String :=
  "error" ++ ":" ++ " `" ++ ("--" ++ name) ++ "` and `" ++ ("--no-" ++ name) ++
    "` cannot be used together. " ++
    "Boolean flags on different levels are currently not supported " ++
    "(https://github.com/clap-rs/clap/issues/6049)"

/-- `flag` (`options.rs` lines 15-37): given a boolean flag pair (like
`--upgrade` and `--no-upgrade`), resolve the value of the flag.  The
`(true, true)` case exits the process with code 2; it is embedded as the
`Except.error` branch. -/
def flag (yes no : Bool) (name : String) : Except FlagFatal (Option Bool) :=
  match yes, no with
  | true, false => .ok (some true)
  | false, true => .ok (some false)
  | false, false => .ok none
  | _, _ => .error ⟨2, flagConflictMessage name⟩

/-- `msg` names `flagSpelling`: the flag spelling occurs verbatim inside the
message. -/
def Mentions (msg flagSpelling : String) : Prop :=
  ∃ pre post, msg = pre ++ flagSpelling ++ post

/-- `PrereleaseMode` (crate `uv-resolver`): pre-release resolution strategy. -/
inductive PrereleaseMode where
  | disallow
  | allow
  | ifNecessary
  | explicitOnly
  | ifNecessaryOrExplicit
deriving DecidableEq, Repr

/-- The fields of `ResolverArgs` (crate `uv-cli`) that participate in boolean
flag collapse, per-package list normalization, and the `--pre` shorthand.  The
pass-through fields (`index_args`, `index_strategy`, `keyring_provider`,
`resolution`, `fork_strategy`, `config_setting`, `config_settings_package`,
`exclude_newer`, `exclude_newer_package`, `link_mode`) are copied or mapped
verbatim by the conversions below and are omitted from the embedding. -/
structure ResolverArgs where
  upgrade : Bool
  no_upgrade : Bool
  upgrade_package : List String
  prerelease : Option PrereleaseMode
  pre : Bool
  no_build_isolation : Bool
  no_build_isolation_package : List String
  build_isolation : Bool
  no_sources : Bool
deriving DecidableEq, Repr

/-- The fields of `PipOptions` (crate `uv-settings`) populated by the embedded
conversions.  Index and pass-through fields are omitted (see `ResolverArgs`). -/
structure PipOptions where
  upgrade : Option Bool := none
  upgrade_package : Option (List String) := none
  reinstall : Option Bool := none
  reinstall_package : Option (List String) := none
  prerelease : Option PrereleaseMode := none
  no_build_isolation : Option Bool := none
  no_build_isolation_package : Option (List String) := none
  no_sources : Option Bool := none
deriving DecidableEq, Repr

/-- `impl From<ResolverArgs> for PipOptions` (`options.rs` lines 51-103),
restricted to the embedded fields.  The two `flag` calls are sequenced in the
order the Rust struct literal evaluates them; either may exit the process. -/
def PipOptions.ofResolverArgs (args : ResolverArgs) : Except FlagFatal PipOptions := do
  let upgrade ← flag args.upgrade args.no_upgrade "no-upgrade"
  let prerelease := if args.pre then some PrereleaseMode.allow else args.prerelease
  let no_build_isolation ← flag args.no_build_isolation args.build_isolation "build-isolation"
  pure
    { upgrade := upgrade
      upgrade_package := some args.upgrade_package
      prerelease := prerelease
      no_build_isolation := no_build_isolation
      no_build_isolation_package := some args.no_build_isolation_package
      no_sources := if args.no_sources then some true else none }

/-- The fields of `ResolverInstallerArgs` (crate `uv-cli`) that participate in
the embedded normalization (same projection policy as `ResolverArgs`). -/
structure ResolverInstallerArgs where
  upgrade : Bool
  no_upgrade : Bool
  upgrade_package : List String
  reinstall : Bool
  no_reinstall : Bool
  reinstall_package : List String
  prerelease : Option PrereleaseMode
  pre : Bool
  no_build_isolation : Bool
  no_build_isolation_package : List String
  build_isolation : Bool
  compile_bytecode : Bool
  no_compile_bytecode : Bool
  no_sources : Bool
deriving DecidableEq, Repr

/-- `BuildOptionsArgs` (crate `uv-cli`): the `--no-build` / `--no-binary`
flag pairs and their per-package lists. -/
structure BuildOptionsArgs where
  no_build : Bool
  build : Bool
  no_build_package : List String
  no_binary : Bool
  binary : Bool
  no_binary_package : List String
deriving DecidableEq, Repr

/-- The fields of `ResolverInstallerOptions` (crate `uv-settings`) populated by
`resolver_installer_options` (same projection policy as `PipOptions`). -/
structure ResolverInstallerOptions where
  upgrade : Option Bool := none
  upgrade_package : Option (List String) := none
  reinstall : Option Bool := none
  reinstall_package : Option (List String) := none
  prerelease : Option PrereleaseMode := none
  no_build_isolation : Option Bool := none
  no_build_isolation_package : Option (List String) := none
  compile_bytecode : Option Bool := none
  no_build : Option Bool := none
  no_build_package : Option (List String) := none
  no_binary : Option Bool := none
  no_binary_package : Option (List String) := none
  no_sources : Option Bool := none
deriving DecidableEq, Repr

/-- `resolver_installer_options` (`options.rs` lines 372-498), restricted to
the embedded fields.  The six `flag` calls are sequenced in the order the Rust
struct literal evaluates them; empty per-package lists collapse to `none`. -/
def resolver_installer_options (args : ResolverInstallerArgs) (build_args : BuildOptionsArgs) :
    Except FlagFatal ResolverInstallerOptions := do
  let upgrade ← flag args.upgrade args.no_upgrade "upgrade"
  let reinstall ← flag args.reinstall args.no_reinstall "reinstall"
  let prerelease := if args.pre then some PrereleaseMode.allow else args.prerelease
  let no_build_isolation ← flag args.no_build_isolation args.build_isolation "build-isolation"
  let compile_bytecode ← flag args.compile_bytecode args.no_compile_bytecode "compile-bytecode"
  let no_build ← flag build_args.no_build build_args.build "build"
  let no_binary ← flag build_args.no_binary build_args.binary "binary"
  pure
    { upgrade := upgrade
      upgrade_package :=
        if args.upgrade_package.isEmpty then none else some args.upgrade_package
      reinstall := reinstall
      reinstall_package :=
        if args.reinstall_package.isEmpty then none else some args.reinstall_package
      prerelease := prerelease
      no_build_isolation := no_build_isolation
      no_build_isolation_package :=
        if args.no_build_isolation_package.isEmpty then none
        else some args.no_build_isolation_package
      compile_bytecode := compile_bytecode
      no_build := no_build
      no_build_package :=
        if build_args.no_build_package.isEmpty then none else some build_args.no_build_package
      no_binary := no_binary
      no_binary_package :=
        if build_args.no_binary_package.isEmpty then none else some build_args.no_binary_package
      no_sources := if args.no_sources then some true else none }

/-! ## Static dependency metadata
(`crates/uv-distribution-types/src/dependency_metadata.rs`) -/

/-- `StaticMetadata`: a user-supplied metadata entry.  `PackageName` and
`Version` are embedded as strings (only equality on them is used here);
requirement strings and extras are carried verbatim. -/
structure StaticMetadata where
  name : String
  version : Option String
  requires_dist : List String
  requires_python : Option String
  provides_extras : List String
deriving DecidableEq, Repr

/-- `ResolutionMetadata` (crate `uv-pypi-types`), restricted to the fields
`DependencyMetadata::get` populates. -/
structure ResolutionMetadata where
  name : String
  version : String
  requires_dist : List String
  requires_python : Option String
  provides_extras : List String
  dynamic : Bool
deriving DecidableEq, Repr

/-- `DependencyMetadata`: entries indexed by package name.  The Rust
`FxHashMap<PackageName, Vec<StaticMetadata>>` built by `from_entries` pushes
each entry onto its name's vector in input order, so the vector for `package`
is exactly the input entries with that name, in order; we carry the entry list
and recover a name's vector by filtering. -/
abbrev DependencyMetadata := List StaticMetadata

/-- The vector `self.0.get(package)` would return: all entries with the given
name, in insertion order. -/
def DependencyMetadata.entriesFor (dm : DependencyMetadata) (package : String) :
    List StaticMetadata :=
  dm.filter (fun e => e.name = package)

/-- `DependencyMetadata::get` (`dependency_metadata.rs` lines 24-77).  The
`self.0.get(package)?` map lookup fails exactly when no entry with that name
was inserted. -/
def DependencyMetadata.get (dm : DependencyMetadata) (package : String)
    (version : Option String) : Option ResolutionMetadata :=
  let versions := dm.entriesFor package
  if versions.isEmpty then none
  else
    match version with
    | some v =>
      -- If a specific version was requested, search for an exact match, then a
      -- global match.
      match versions.find? (fun entry => entry.version = some v) with
      | some metadata =>
        some ⟨metadata.name, v, metadata.requires_dist, metadata.requires_python,
          metadata.provides_extras, false⟩
      | none =>
        match versions.find? (fun entry => entry.version = none) with
        | some metadata =>
          some ⟨metadata.name, v, metadata.requires_dist, metadata.requires_python,
            metadata.provides_extras, false⟩
        | none => none
    | none =>
      -- If no version was requested (i.e., it's a direct URL dependency), allow
      -- a single versioned match.
      match versions with
      | [metadata] =>
        match metadata.version with
        | some v =>
          some ⟨metadata.name, v, metadata.requires_dist, metadata.requires_python,
            metadata.provides_extras, false⟩
        | none => none
      | _ => none

/-! ## Target platform modelling (`crates/uv-configuration/src/target_triple.rs`) -/

/-- `Os` (crate `uv-platform-tags`), restricted to the variants the target
triples project to. -/
inductive Os where
  | windows
  | manylinux (major minor : Nat)
  | musllinux (major minor : Nat)
  | macos (major minor : Nat)
  | pyodide (major minor : Nat)
deriving DecidableEq, Repr

/-- `Arch` (crate `uv-platform-tags`), restricted to the variants the target
triples project to. -/
inductive Arch where
  | x86
  | x86_64
  | aarch64
  | wasm32
deriving DecidableEq, Repr

/-- `Platform` (crate `uv-platform-tags`): an operating system paired with an
architecture. -/
structure Platform where
  os : Os
  arch : Arch
deriving DecidableEq, Repr

/-- `TargetTriple` (`target_triple.rs` lines 15-233): the closed enumeration of
supported targets. -/
inductive TargetTriple where
  | Windows
  | Linux
  | Macos
  | X8664PcWindowsMsvc
  | I686PcWindowsMsvc
  | X8664UnknownLinuxGnu
  | Aarch64AppleDarwin
  | X8664AppleDarwin
  | Aarch64UnknownLinuxGnu
  | Aarch64UnknownLinuxMusl
  | X8664UnknownLinuxMusl
  | X8664Manylinux2014
  | X8664Manylinux217
  | X8664Manylinux228
  | X8664Manylinux231
  | X8664Manylinux232
  | X8664Manylinux233
  | X8664Manylinux234
  | X8664Manylinux235
  | X8664Manylinux236
  | X8664Manylinux237
  | X8664Manylinux238
  | X8664Manylinux239
  | X8664Manylinux240
  | Aarch64Manylinux2014
  | Aarch64Manylinux217
  | Aarch64Manylinux228
  | Aarch64Manylinux231
  | Aarch64Manylinux232
  | Aarch64Manylinux233
  | Aarch64Manylinux234
  | Aarch64Manylinux235
  | Aarch64Manylinux236
  | Aarch64Manylinux237
  | Aarch64Manylinux238
  | Aarch64Manylinux239
  | Aarch64Manylinux240
  | Wasm32Pyodide2024
deriving DecidableEq, Repr

/-- Split a character list at every `.`, as Rust `str::split('.')` does:
the empty input yields one empty part, and a trailing `.` yields a trailing
empty part. -/
def splitDots : List Char → List (List Char)
  | [] => [[]]
  | c :: rest =>
    if c = '.' then [] :: splitDots rest
    else
      match splitDots rest with
      | [] => [[c]]
      | p :: ps => (c :: p) :: ps

/-- Rust `str::parse::<u16>().ok()`: an optional leading `+`, then one or more
ASCII digits, with the value required to fit in 16 bits. -/
def parseU16 (s : List Char) : Option Nat :=
  let t := match s with
    | '+' :: rest => rest
    | _ => s
  if t.isEmpty then none
  else if t.all Char.isDigit then
    let n := t.foldl (fun acc c => acc * 10 + (c.toNat - 48)) 0
    if n < 65536 then some n else none
  else none

/-- `macos_deployment_target` (`target_triple.rs` lines 776-787): parse the
`MACOSX_DEPLOYMENT_TARGET` environment variable.  The single environment read
`std::env::var(..).ok()` is embedded as the explicit `env : Option (List Char)`
argument (`none` when the variable is unset).  The major version comes from the
first `.`-separated part; the minor from the second part, defaulting to `"0"`
when absent; extra parts are ignored. -/
def macos_deployment_target (env : Option (List Char)) : Option (Nat × Nat) := do
  let version ← env
  let parts := splitDots version
  let major ← parseU16 (parts.headD [])
  let minor ← parseU16 (((parts.drop 1).headD ['0']))
  pure (major, minor)

/-- `TargetTriple::platform` (`target_triple.rs` lines 237-465).  The one
environment read performed by the macOS arms is threaded in as `env`. -/
def TargetTriple.platform (t : TargetTriple) (env : Option (List Char)) : Platform :=
  match t with
  | .Windows | .X8664PcWindowsMsvc => ⟨Os.windows, Arch.x86_64⟩
  | .Linux | .X8664UnknownLinuxGnu => ⟨Os.manylinux 2 28, Arch.x86_64⟩
  | .Macos | .Aarch64AppleDarwin =>
    let (major, minor) := (macos_deployment_target env).getD (13, 0)
    ⟨Os.macos major minor, Arch.aarch64⟩
  | .I686PcWindowsMsvc => ⟨Os.windows, Arch.x86⟩
  | .X8664AppleDarwin =>
    let (major, minor) := (macos_deployment_target env).getD (13, 0)
    ⟨Os.macos major minor, Arch.x86_64⟩
  | .Aarch64UnknownLinuxGnu => ⟨Os.manylinux 2 28, Arch.aarch64⟩
  | .Aarch64UnknownLinuxMusl => ⟨Os.musllinux 1 2, Arch.aarch64⟩
  | .X8664UnknownLinuxMusl => ⟨Os.musllinux 1 2, Arch.x86_64⟩
  | .X8664Manylinux2014 => ⟨Os.manylinux 2 17, Arch.x86_64⟩
  | .X8664Manylinux217 => ⟨Os.manylinux 2 17, Arch.x86_64⟩
  | .X8664Manylinux228 => ⟨Os.manylinux 2 28, Arch.x86_64⟩
  | .X8664Manylinux231 => ⟨Os.manylinux 2 31, Arch.x86_64⟩
  | .X8664Manylinux232 => ⟨Os.manylinux 2 32, Arch.x86_64⟩
  | .X8664Manylinux233 => ⟨Os.manylinux 2 33, Arch.x86_64⟩
  | .X8664Manylinux234 => ⟨Os.manylinux 2 34, Arch.x86_64⟩
  | .X8664Manylinux235 => ⟨Os.manylinux 2 35, Arch.x86_64⟩
  | .X8664Manylinux236 => ⟨Os.manylinux 2 36, Arch.x86_64⟩
  | .X8664Manylinux237 => ⟨Os.manylinux 2 37, Arch.x86_64⟩
  | .X8664Manylinux238 => ⟨Os.manylinux 2 38, Arch.x86_64⟩
  | .X8664Manylinux239 => ⟨Os.manylinux 2 39, Arch.x86_64⟩
  | .X8664Manylinux240 => ⟨Os.manylinux 2 40, Arch.x86_64⟩
  | .Aarch64Manylinux2014 => ⟨Os.manylinux 2 17, Arch.aarch64⟩
  | .Aarch64Manylinux217 => ⟨Os.manylinux 2 17, Arch.aarch64⟩
  | .Aarch64Manylinux228 => ⟨Os.manylinux 2 28, Arch.aarch64⟩
  | .Aarch64Manylinux231 => ⟨Os.manylinux 2 31, Arch.aarch64⟩
  | .Aarch64Manylinux232 => ⟨Os.manylinux 2 32, Arch.aarch64⟩
  | .Aarch64Manylinux233 => ⟨Os.manylinux 2 33, Arch.aarch64⟩
  | .Aarch64Manylinux234 => ⟨Os.manylinux 2 34, Arch.aarch64⟩
  | .Aarch64Manylinux235 => ⟨Os.manylinux 2 35, Arch.aarch64⟩
  | .Aarch64Manylinux236 => ⟨Os.manylinux 2 36, Arch.aarch64⟩
  | .Aarch64Manylinux237 => ⟨Os.manylinux 2 37, Arch.aarch64⟩
  | .Aarch64Manylinux238 => ⟨Os.manylinux 2 38, Arch.aarch64⟩
  | .Aarch64Manylinux239 => ⟨Os.manylinux 2 39, Arch.aarch64⟩
  | .Aarch64Manylinux240 => ⟨Os.manylinux 2 40, Arch.aarch64⟩
  | .Wasm32Pyodide2024 => ⟨Os.pyodide 2024 0, Arch.wasm32⟩

/-- `TargetTriple::platform_machine` (`target_triple.rs` lines 468-506). -/
def TargetTriple.platform_machine (t : TargetTriple) : String :=
  match t with
  | .Windows | .X8664PcWindowsMsvc => "x86_64"
  | .Linux | .X8664UnknownLinuxGnu => "x86_64"
  | .Macos | .Aarch64AppleDarwin => "arm64"
  | .I686PcWindowsMsvc => "x86"
  | .X8664AppleDarwin => "x86_64"
  | .Aarch64UnknownLinuxGnu | .Aarch64UnknownLinuxMusl => "aarch64"
  | .X8664UnknownLinuxMusl => "x86_64"
  | .X8664Manylinux2014 | .X8664Manylinux217 | .X8664Manylinux228 | .X8664Manylinux231
  | .X8664Manylinux232 | .X8664Manylinux233 | .X8664Manylinux234 | .X8664Manylinux235
  | .X8664Manylinux236 | .X8664Manylinux237 | .X8664Manylinux238 | .X8664Manylinux239
  | .X8664Manylinux240 => "x86_64"
  | .Aarch64Manylinux2014 | .Aarch64Manylinux217 | .Aarch64Manylinux228 | .Aarch64Manylinux231
  | .Aarch64Manylinux232 | .Aarch64Manylinux233 | .Aarch64Manylinux234 | .Aarch64Manylinux235
  | .Aarch64Manylinux236 | .Aarch64Manylinux237 | .Aarch64Manylinux238 | .Aarch64Manylinux239
  | .Aarch64Manylinux240 => "aarch64"
  | .Wasm32Pyodide2024 => "wasm32"

/-- `TargetTriple::platform_system` (`target_triple.rs` lines 509-547). -/
def TargetTriple.platform_system (t : TargetTriple) : String :=
  match t with
  | .Windows | .X8664PcWindowsMsvc | .I686PcWindowsMsvc => "Windows"
  | .Macos | .Aarch64AppleDarwin | .X8664AppleDarwin => "Darwin"
  | .Wasm32Pyodide2024 => "Emscripten"
  | _ => "Linux"

/-- `TargetTriple::platform_version` (`target_triple.rs` lines 550-591):
empty for every target except the Pyodide one. -/
def TargetTriple.platform_version (t : TargetTriple) : String :=
  match t with
  | .Wasm32Pyodide2024 => "#1"
  | _ => ""

/-- `TargetTriple::platform_release` (`target_triple.rs` lines 594-634):
empty for every target except the Pyodide one. -/
def TargetTriple.platform_release (t : TargetTriple) : String :=
  match t with
  | .Wasm32Pyodide2024 => "3.1.58"
  | _ => ""

/-- `TargetTriple::os_name` (`target_triple.rs` lines 637-675). -/
def TargetTriple.os_name (t : TargetTriple) : String :=
  match t with
  | .Windows | .X8664PcWindowsMsvc | .I686PcWindowsMsvc => "nt"
  | _ => "posix"

/-- `TargetTriple::sys_platform` (`target_triple.rs` lines 678-716). -/
def TargetTriple.sys_platform (t : TargetTriple) : String :=
  match t with
  | .Windows | .X8664PcWindowsMsvc | .I686PcWindowsMsvc => "win32"
  | .Macos | .Aarch64AppleDarwin | .X8664AppleDarwin => "darwin"
  | .Wasm32Pyodide2024 => "emscripten"
  | _ => "linux"

/-- `MarkerEnvironment` (crate `uv-pep508`): the PEP 508 marker key/value
record.  Version-typed fields are embedded as their string value. -/
structure MarkerEnvironment where
  implementation_name : String
  implementation_version : String
  os_name : String
  platform_machine : String
  platform_python_implementation : String
  platform_release : String
  platform_system : String
  platform_version : String
  python_full_version : String
  python_version : String
  sys_platform : String
deriving DecidableEq, Repr

/-- Modelled from the spec: `MarkerEnvironment::with_os_name` (crate
`uv-pep508`, not in the excerpt) replaces the `os_name` field and leaves the
rest unchanged. -/
def MarkerEnvironment.with_os_name (env : MarkerEnvironment) (value : String) :
    MarkerEnvironment :=
  { env with os_name := value }

/-- Modelled from the spec: `MarkerEnvironment::with_platform_machine`
replaces the `platform_machine` field and leaves the rest unchanged. -/
def MarkerEnvironment.with_platform_machine (env : MarkerEnvironment) (value : String) :
    MarkerEnvironment :=
  { env with platform_machine := value }

/-- Modelled from the spec: `MarkerEnvironment::with_platform_system`
replaces the `platform_system` field and leaves the rest unchanged. -/
def MarkerEnvironment.with_platform_system (env : MarkerEnvironment) (value : String) :
    MarkerEnvironment :=
  { env with platform_system := value }

/-- Modelled from the spec: `MarkerEnvironment::with_sys_platform`
replaces the `sys_platform` field and leaves the rest unchanged. -/
def MarkerEnvironment.with_sys_platform (env : MarkerEnvironment) (value : String) :
    MarkerEnvironment :=
  { env with sys_platform := value }

/-- Modelled from the spec: `MarkerEnvironment::with_platform_release`
replaces the `platform_release` field and leaves the rest unchanged. -/
def MarkerEnvironment.with_platform_release (env : MarkerEnvironment) (value : String) :
    MarkerEnvironment :=
  { env with platform_release := value }

/-- Modelled from the spec: `MarkerEnvironment::with_platform_version`
replaces the `platform_version` field and leaves the rest unchanged. -/
def MarkerEnvironment.with_platform_version (env : MarkerEnvironment) (value : String) :
    MarkerEnvironment :=
  { env with platform_version := value }

/-- `TargetTriple::markers` (`target_triple.rs` lines 764-772): override the
base environment's platform markers with the target's projections. -/
def TargetTriple.markers (t : TargetTriple) (base : MarkerEnvironment) : MarkerEnvironment :=
  ((((((base.with_os_name t.os_name).with_platform_machine
    t.platform_machine).with_platform_system
    t.platform_system).with_sys_platform
    t.sys_platform).with_platform_release
    t.platform_release).with_platform_version
    t.platform_version)

/-! ## The `pip install` driver (`crates/uv/src/commands/pip/install.rs`)

The driver is embedded from the point where the requirement sources have been
read (the destructured `RequirementsSpecification` becomes input fields) to the
final exit status.  Each fallible call into an external collaborator is an
`Except UvError` oracle; the `Printer` writes and debug logging are not
modelled.  A `Trace` records which collaborators were invoked. -/

/-- `Reinstall` (crate `uv-configuration`): reinstall policy. -/
inductive Reinstall where
  | noReinstall
  | all
  | packages (names : List String)
deriving DecidableEq, Repr

/-- `Reinstall::is_none`: true only for the no-reinstall policy. -/
def Reinstall.is_none (r : Reinstall) : Bool :=
  match r with
  | .noReinstall => true
  | _ => false

/-- `Upgrade` (crate `uv-configuration`): upgrade policy. -/
inductive Upgrade where
  | noUpgrade
  | all
  | packages (names : List String)
deriving DecidableEq, Repr

/-- `Upgrade::is_none`: true only for the no-upgrade policy. -/
def Upgrade.is_none (u : Upgrade) : Bool :=
  match u with
  | .noUpgrade => true
  | _ => false

/-- `Modifications` (`commands/pip/operations.rs`): whether install may leave
unrelated packages in place (`sufficient`) or must remove them (`exact`). -/
inductive Modifications where
  | sufficient
  | exact
deriving DecidableEq, Repr

/-- `HashCheckingMode` (crate `uv-types`). -/
inductive HashCheckingMode where
  | require
  | verify
deriving DecidableEq, Repr

/-- `TorchMode` (crate `uv-torch`), collapsed to presence: only
`torch_backend.is_some()` influences the embedded control flow. -/
inductive TorchMode where
  | auto
  | cpu
deriving DecidableEq, Repr

/-- `VersionSpecifiers` (crate `uv-pep440`), abstracted to the membership test
`contains` used by the lock-file compatibility check, plus its rendering for
the error message. -/
structure VersionSpecifiers where
  contains : String → Bool
  display : String

/-- `PylockToml` (crate `uv-resolver`), restricted to the fields `pip_install`
consumes. -/
structure PylockToml where
  requires_python : Option VersionSpecifiers
  extras : List String
  default_groups : List String
  dependency_groups : List String

/-- The interpreter behind the environment: its reported Python version and
the content of an `EXTERNALLY-MANAGED` marker (`some msg?` when the marker file
exists, with `msg?` the optional error message it carries). -/
structure Interpreter where
  python_version : String
  externally_managed : Option (Option String)

/-- `PythonEnvironment` (crate `uv-python`): the interpreter plus the root
directory, optionally redirected by `--target` / `--prefix`. -/
structure Environment where
  interp : Interpreter
  root : String
  targetDir : Option String
  prefixDir : Option String

/-- Modelled from the spec: `Interpreter::is_externally_managed` lives in the
interpreter-discovery subsystem (crate `uv-python`, not in the excerpt).  Per
the spec (§8 scenario 6, "`--target` suppresses the externally-managed check
for direct install"), the marker is ignored when the environment has been
redirected with `--target`; otherwise the interpreter's marker is reported. -/
def Environment.is_externally_managed (env : Environment) : Option (Option String) :=
  if env.targetDir.isSome then none else env.interp.externally_managed

/-- `environment.with_target(target)?` / `.with_prefix(prefix)?`
(`install.rs` lines 217-231): redirect the environment, with the fallible
directory initialization embedded as an oracle result. -/
def wrapEnv (target prefixDir : Option String) (targetInit prefixInit : Except UvError Unit)
    (env : Environment) : Except UvError Environment :=
  match target with
  | some t => targetInit.map (fun _ => { env with targetDir := some t })
  | none =>
    match prefixDir with
    | some p => prefixInit.map (fun _ => { env with prefixDir := some p })
    | none => .ok env

/-- The externally-managed abort message (`install.rs` lines 238-249), in its
two forms (with and without a marker-supplied message; indentation and styling
not modelled). -/
def externallyManagedError (env : Environment) (markerMessage : Option String) : UvError :=
  match markerMessage with
  | some error =>
    "The interpreter at " ++ env.root ++
      " is externally managed, and indicates the following:\n\n" ++ error ++
      "\n\nConsider creating a virtual environment with `uv venv`."
  | none =>
    "The interpreter at " ++ env.root ++
      " is externally managed. Instead, create a virtual environment with `uv venv`."

/-- `SatisfiesResult` (crate `uv-installer`): outcome of the site-packages
satisfaction check. -/
inductive SatisfiesResult where
  | fresh (recursive_requirements : List String)
  | unsatisfied (requirement : String)

/-- `SitePackages` (crate `uv-installer`), abstracted to the one fallible query
`pip_install` makes of it: `satisfies_spec`. -/
structure SitePackages where
  satisfies : Except UvError SatisfiesResult

/-- A resolved dependency graph; its contents are opaque to the driver. -/
structure Resolution where
  tag : Nat
deriving DecidableEq, Repr

/-- The inputs of `pip_install` that steer the embedded control flow, named
after the Rust parameters and the fields destructured from
`RequirementsSpecification`. -/
structure PipInstallArgs where
  requirements : List String
  constraints : List String
  overrides : List String
  pylock : Option String
  source_trees : List String
  groups : List String
  reinstall : Reinstall
  upgrade : Upgrade
  modifications : Modifications
  hash_checking : Option HashCheckingMode
  torch_backend : Option TorchMode
  strict : Bool
  dry_run : Bool
  break_system_packages : Bool
  target : Option String
  prefix_dir : Option String

/-- The external collaborators `pip_install` calls, in pipeline order; each
fallible call is an `Except` value, and the operation-diagnostic formatter is
the function `reportDiagnostic` (returning `none` when it consumed the
error). -/
structure PipInstallOracles where
  findEnvironment : Except UvError Environment
  targetInit : Except UvError Unit
  prefixInit : Except UvError Unit
  envLock : Except UvError Unit
  sitePackages : Except UvError SitePackages
  tags : Except UvError Unit
  hashFromRequirements : Except UvError Unit
  torchStrategy : Except UvError Unit
  flatIndex : Except UvError Unit
  buildHasher : Except UvError Unit
  readAndParseLock : Except UvError PylockToml
  lockToResolution : Except UvError Resolution
  hashFromResolution : Except UvError Unit
  resolve : Except UvError Resolution
  reportDiagnostic : UvError → Option UvError
  install : Except UvError Unit
  diagnoseResolution : Except UvError Unit
  diagnoseEnvironment : Except UvError Unit

/-- Which collaborators a `pip_install` run invoked. -/
structure Trace where
  satisfactionChecked : Bool := false
  resolverInvoked : Bool := false
  installerInvoked : Bool := false
  lockProjected : Bool := false
  installTarget : Option String := none
deriving DecidableEq, Repr

/-- The outcome of an embedded `pip_install` run. -/
structure RunResult where
  result : Except UvError ExitStatus
  trace : Trace

/-- The six gating conditions of the satisfaction fast path (`install.rs`
lines 275-281), in source order. -/
def fastPathGate (a : PipInstallArgs) : Bool :=
  a.reinstall.is_none && a.upgrade.is_none && a.source_trees.isEmpty && a.groups.isEmpty &&
    a.pylock.isNone &&
    (match a.modifications with
      | .sufficient => true
      | _ => false)

/-- S7/S8 (`install.rs` lines 557-600): invoke the installer, then the two
diagnostic reporters; installer failures are routed through the
operation-diagnostic formatter. -/
def installStage (a : PipInstallArgs) (o : PipInstallOracles) (env : Environment) (t : Trace) :
    RunResult :=
  let t := { t with installerInvoked := true, installTarget := env.targetDir }
  match o.install with
  | .error e =>
    match o.reportDiagnostic e with
    | none => ⟨.ok .failure, t⟩
    | some e => ⟨.error e, t⟩
  | .ok _ =>
    match o.diagnoseResolution with
    | .error e => ⟨.error e, t⟩
    | .ok _ =>
      if a.strict && !a.dry_run then
        match o.diagnoseEnvironment with
        | .error e => ⟨.error e, t⟩
        | .ok _ => ⟨.ok .success, t⟩
      else ⟨.ok .success, t⟩

/-- Lock projection (`install.rs` lines 473-500): project the parsed lock to a
concrete resolution against the current tags and build options, then derive a
hash policy from it in `Verify` mode. -/
def lockProject (a : PipInstallArgs) (o : PipInstallOracles) (env : Environment) (t : Trace) :
    RunResult :=
  let t := { t with lockProjected := true }
  match o.lockToResolution with
  | .error e => ⟨.error e, t⟩
  | .ok _ =>
    match o.hashFromResolution with
    | .error e => ⟨.error e, t⟩
    | .ok _ => installStage a o env t

/-- S6 (`install.rs` lines 453-555): either the lock-file path (read and parse
`pylock.toml`, verify `requires-python` against the interpreter, project) or
the solver path (invoke the resolver, routing failures through the
operation-diagnostic formatter). -/
def resolutionStage (a : PipInstallArgs) (o : PipInstallOracles) (env : Environment) (t : Trace) :
    RunResult :=
  match a.pylock with
  | some _ =>
    match o.readAndParseLock with
    | .error e => ⟨.error e, t⟩
    | .ok lock =>
      match lock.requires_python with
      | some requiresPython =>
        if !(requiresPython.contains env.interp.python_version) then
          ⟨.error ("The requested interpreter resolved to Python " ++
            env.interp.python_version ++
            ", which is incompatible with the `pylock.toml`'s Python requirement: `" ++
            requiresPython.display ++ "`"), t⟩
        else lockProject a o env t
      | none => lockProject a o env t
  | none =>
    let t := { t with resolverInvoked := true }
    match o.resolve with
    | .ok _ => installStage a o env t
    | .error e =>
      match o.reportDiagnostic e with
      | none => ⟨.ok .failure, t⟩
      | some e => ⟨.error e, t⟩

/-- S5 (`install.rs` lines 309-451): resolver-stack assembly after the fast
path — tags, hash policy (only under `--require-hashes`/`--verify-hashes`),
torch strategy (only under `--torch-backend`), flat-index fetch, and the build
hasher; each may fail and abort the pipeline. -/
def afterFastPath (a : PipInstallArgs) (o : PipInstallOracles) (env : Environment) (t : Trace) :
    RunResult :=
  match o.tags with
  | .error e => ⟨.error e, t⟩
  | .ok _ =>
    match (if a.hash_checking.isSome then o.hashFromRequirements else .ok ()) with
    | .error e => ⟨.error e, t⟩
    | .ok _ =>
      match (if a.torch_backend.isSome then o.torchStrategy else .ok ()) with
      | .error e => ⟨.error e, t⟩
      | .ok _ =>
        match o.flatIndex with
        | .error e => ⟨.error e, t⟩
        | .ok _ =>
          match (if a.hash_checking.isSome then o.buildHasher else .ok ()) with
          | .error e => ⟨.error e, t⟩
          | .ok _ => resolutionStage a o env t

/-- S4 (`install.rs` lines 253-307): swallow the advisory environment-lock
result, snapshot site-packages, and run the satisfaction fast path when all
six gating conditions hold.  A `Fresh` answer returns success immediately. -/
def fastPathStage (a : PipInstallArgs) (o : PipInstallOracles) (env : Environment) : RunResult :=
  -- `let _lock = environment.lock().await.inspect_err(..).ok();` — the
  -- acquisition failure is swallowed, so the oracle result is ignored.
  match o.sitePackages with
  | .error e => ⟨.error e, {}⟩
  | .ok sp =>
    if fastPathGate a then
      match sp.satisfies with
      | .error e => ⟨.error e, { satisfactionChecked := true }⟩
      | .ok (.fresh _) => ⟨.ok .success, { satisfactionChecked := true }⟩
      | .ok (.unsatisfied _) => afterFastPath a o env { satisfactionChecked := true }
    else afterFastPath a o env {}

/-- `pip_install` (`install.rs` lines 53-601), from interpreter binding to exit
status: find the environment, apply `--target`/`--prefix`, enforce the
externally-managed policy, then run the fast path and the remaining stages. -/
def pipInstall (a : PipInstallArgs) (o : PipInstallOracles) : RunResult :=
  match o.findEnvironment with
  | .error e => ⟨.error e, {}⟩
  | .ok env0 =>
    match wrapEnv a.target a.prefix_dir o.targetInit o.prefixInit env0 with
    | .error e => ⟨.error e, {}⟩
    | .ok env =>
      match env.is_externally_managed with
      | some markerMessage =>
        if a.break_system_packages then fastPathStage a o env
        else ⟨.error (externallyManagedError env markerMessage), {}⟩
      | none => fastPathStage a o env

/-! ## The `pip uninstall` driver (`crates/uv/src/commands/pip/uninstall.rs`) -/

/-- `UnresolvedRequirement` (crate `uv-distribution-types`) as `pip_uninstall`
partitions it: a named requirement (the version specifier is ignored by the
driver, which keeps only `requirement.name`) or an unnamed, URL-keyed one
(keyed by its verbatim URL). -/
inductive UnresolvedReq where
  | named (name : String)
  | unnamed (url : String)
deriving DecidableEq, Repr

/-- An installed distribution as the uninstall driver sees it: its name, its
install path (the deduplication key), and its installed version rendering. -/
structure Dist where
  name : String
  installPath : String
  installedVersion : String
deriving DecidableEq, Repr

/-- The `site-packages` index (crate `uv-installer`), abstracted to the two
queries `pip_uninstall` makes: lookup by distribution name and by install
URL. -/
structure UninstallSitePackages where
  getPackages : String → List Dist
  getUrls : String → List Dist

/-- The file/directory counts returned by the uninstall collaborator. -/
structure UninstallSummary where
  file_count : Nat
  dir_count : Nat
deriving DecidableEq, Repr

/-- The loop of Rust `Vec::dedup_by_key`: walk the tail, dropping each element
whose key equals the key of the most recently kept element (`prev`). -/
def dedupByKeyAux {α κ : Type} [DecidableEq κ] (key : α → κ) (prev : κ) :
    List α → List α
  | [] => []
  | b :: rest =>
    if key b = prev then dedupByKeyAux key prev rest
    else b :: dedupByKeyAux key (key b) rest

/-- Rust `Vec::dedup_by_key` / `Vec::dedup`: remove all but the first of each
run of consecutive elements sharing a key. -/
def dedupByKey {α κ : Type} [DecidableEq κ] (key : α → κ) : List α → List α
  | [] => []
  | a :: rest => a :: dedupByKeyAux key (key a) rest

/-- The named half of the partition (`uninstall.rs` lines 116-122), projected
to package names (line 129: `requirement.name`). -/
def namedNames (reqs : List UnresolvedReq) : List String :=
  reqs.filterMap fun r =>
    match r with
    | .named n => some n
    | .unnamed _ => none

/-- The unnamed half of the partition, projected to verbatim URLs
(`uninstall.rs` line 140). -/
def unnamedUrls (reqs : List UnresolvedReq) : List String :=
  reqs.filterMap fun r =>
    match r with
    | .named _ => none
    | .unnamed u => some u

/-- `uninstall.rs` lines 126-134: sort and deduplicate the named packages.
`sort_unstable` followed by adjacent `dedup` is embedded as an insertion sort
followed by `dedupByKey id`. -/
def uninstallNames (reqs : List UnresolvedReq) : List String :=
  dedupByKey id (List.insertionSort (· ≤ ·) (namedNames reqs))

/-- `uninstall.rs` lines 137-145: sort and deduplicate the unnamed URLs. -/
def uninstallUrls (reqs : List UnresolvedReq) : List String :=
  dedupByKey id (List.insertionSort (· ≤ ·) (unnamedUrls reqs))

/-- The stderr warning for a requested package or URL that is not installed
(`uninstall.rs` lines 156-162 and 174-180, styling stripped). -/
def skippingWarning (x : String) : String :=
  "warning: Skipping " ++ x ++ " as it is not installed"

/-- The name-keyed collection loop (`uninstall.rs` lines 151-167): collect the
installed distributions for each name, warning (outside `--dry-run`) when a
name has none.  Returns the collected distributions and the warning lines, in
emission order. -/
def collectNamed (sp : UninstallSitePackages) (dryRun : Bool) :
    List String → List Dist × List String
  | [] => ([], [])
  | package :: rest =>
    let installed := sp.getPackages package
    let (ds, ws) := collectNamed sp dryRun rest
    if installed.isEmpty then
      (ds, if dryRun then ws else skippingWarning package :: ws)
    else (installed ++ ds, ws)

/-- The URL-keyed collection loop (`uninstall.rs` lines 169-185). -/
def collectUrls (sp : UninstallSitePackages) (dryRun : Bool) :
    List String → List Dist × List String
  | [] => ([], [])
  | url :: rest =>
    let installed := sp.getUrls url
    let (ds, ws) := collectUrls sp dryRun rest
    if installed.isEmpty then
      (ds, if dryRun then ws else skippingWarning url :: ws)
    else (installed ++ ds, ws)

/-- `uninstall.rs` lines 147-191: the full collection — names, then URLs, then
sort by install path and deduplicate by install path.  Returns the final
distribution list and the accumulated warnings. -/
def uninstallTargets (sp : UninstallSitePackages) (dryRun : Bool)
    (reqs : List UnresolvedReq) : List Dist × List String :=
  let (namedDists, namedWarnings) := collectNamed sp dryRun (uninstallNames reqs)
  let (urlDists, urlWarnings) := collectUrls sp dryRun (uninstallUrls reqs)
  let collected := namedDists ++ urlDists
  (dedupByKey Dist.installPath
      (List.insertionSort (fun a b => a.installPath ≤ b.installPath) collected),
    namedWarnings ++ urlWarnings)

/-- The per-distribution uninstall loop (`uninstall.rs` lines 208-220): `?`
propagates the first collaborator failure. -/
def uninstallLoop (uninstallDist : Dist → Except UvError UninstallSummary) :
    List Dist → Except UvError Unit
  | [] => .ok ()
  | d :: rest =>
    match uninstallDist d with
    | .error e => .error e
    | .ok _ => uninstallLoop uninstallDist rest

/-- The closing summary line (`uninstall.rs` lines 222-245; the elapsed-time
suffix is not modelled). -/
def uninstallSummaryLine (dryRun : Bool) (n : Nat) : String :=
  let s := if n = 1 then "" else "s"
  if dryRun then "Would uninstall " ++ toString n ++ " package" ++ s
  else "Uninstalled " ++ toString n ++ " package" ++ s

/-- The per-distribution report lines (`uninstall.rs` lines 247-255). -/
def uninstallReportLines (dists : List Dist) : List String :=
  dists.map fun d => " - " ++ d.name ++ d.installedVersion

/-- The inputs of `pip_uninstall` that steer the embedded control flow. -/
structure PipUninstallArgs where
  requirements : List UnresolvedReq
  break_system_packages : Bool
  target : Option String
  prefix_dir : Option String
  dry_run : Bool

/-- The external collaborators `pip_uninstall` calls. -/
structure PipUninstallOracles where
  findEnvironment : Except UvError Environment
  targetInit : Except UvError Unit
  prefixInit : Except UvError Unit
  envLock : Except UvError Unit
  sitePackages : Except UvError UninstallSitePackages
  uninstallDist : Dist → Except UvError UninstallSummary

/-- The outcome of an embedded `pip_uninstall` run: the exit status, the
stderr lines in emission order, and the distribution list handed to the
uninstall collaborator's loop (empty under `--dry-run`). -/
structure UninstallRun where
  result : Except UvError ExitStatus
  stderr : List String
  uninstalled : List Dist

/-- `uninstall.rs` lines 112-257, after interpreter binding: index
site-packages, collect the targets, and either report "No packages to
uninstall" (or "Would make no changes" under `--dry-run`) or run the
uninstall loop and print the summary. -/
def uninstallBody (a : PipUninstallArgs) (o : PipUninstallOracles) : UninstallRun :=
  match o.sitePackages with
  | .error e => ⟨.error e, [], []⟩
  | .ok sp =>
    let (dists, warnings) := uninstallTargets sp a.dry_run a.requirements
    if dists.isEmpty then
      ⟨.ok .success,
        warnings ++
          [if a.dry_run then "Would make no changes" else "warning: No packages to uninstall"],
        []⟩
    else
      if a.dry_run then
        ⟨.ok .success,
          warnings ++ [uninstallSummaryLine true dists.length] ++ uninstallReportLines dists,
          []⟩
      else
        match uninstallLoop o.uninstallDist dists with
        | .error e => ⟨.error e, warnings, dists⟩
        | .ok _ =>
          ⟨.ok .success,
            warnings ++ [uninstallSummaryLine false dists.length] ++ uninstallReportLines dists,
            dists⟩

/-- `pip_uninstall` (`uninstall.rs` lines 28-258): bind the interpreter, apply
`--target`/`--prefix`, enforce the externally-managed policy (the advisory
lock failure is swallowed as in `pip_install`), then run the body. -/
def pipUninstall (a : PipUninstallArgs) (o : PipUninstallOracles) : UninstallRun :=
  match o.findEnvironment with
  | .error e => ⟨.error e, [], []⟩
  | .ok env0 =>
    match wrapEnv a.target a.prefix_dir o.targetInit o.prefixInit env0 with
    | .error e => ⟨.error e, [], []⟩
    | .ok env =>
      match env.is_externally_managed with
      | some markerMessage =>
        if a.break_system_packages then uninstallBody a o
        else ⟨.error (externallyManagedError env markerMessage), [], []⟩
      | none => uninstallBody a o

/-! ## Concrete fixtures for witnesses and counterexamples -/

/-- `ResolverArgs` with no flags set and all per-package lists empty: the
input of scenario-style checks on the option conversions. -/
def resolverArgsEmpty : ResolverArgs :=
  { upgrade := false, no_upgrade := false, upgrade_package := [], prerelease := none,
    pre := false, no_build_isolation := false, no_build_isolation_package := [],
    build_isolation := false, no_sources := false }

/-- A concrete `ResolverInstallerArgs` record: one non-empty per-package list
(`upgrade_package`), all other lists empty, no flags set. -/
def riArgsW : ResolverInstallerArgs :=
  { upgrade := false, no_upgrade := false, upgrade_package := ["numpy"],
    reinstall := false, no_reinstall := false, reinstall_package := [],
    prerelease := none, pre := false, no_build_isolation := false,
    no_build_isolation_package := [], build_isolation := false,
    compile_bytecode := false, no_compile_bytecode := false, no_sources := false }

/-- A concrete `BuildOptionsArgs` record with empty lists and no flags. -/
def buildArgsW : BuildOptionsArgs :=
  { no_build := false, build := false, no_build_package := [],
    no_binary := false, binary := false, no_binary_package := [] }

/-- The settings record `resolver_installer_options riArgsW buildArgsW`
produces. -/
def riOptsW : ResolverInstallerOptions :=
  { upgrade_package := some ["numpy"] }

/-- A concrete metadata table: one exact-version entry and one global entry
for the same package. -/
def dmW : DependencyMetadata :=
  [⟨"torch", some "2.0.0", ["numpy"], none, []⟩,
   ⟨"torch", none, ["typing"], none, []⟩]

/-- An interpreter with no `EXTERNALLY-MANAGED` marker. -/
def interpW : Interpreter := ⟨"3.12.0", none⟩

/-- A virtual-environment-like target environment. -/
def envW : Environment := ⟨interpW, "/venv", none, none⟩

/-- Site-packages reporting every requirement already satisfied. -/
def spFreshW : SitePackages := ⟨.ok (.fresh [])⟩

/-- Oracles for a run in which every collaborator succeeds and the
environment is already fresh. -/
def oFreshW : PipInstallOracles :=
  { findEnvironment := .ok envW, targetInit := .ok (), prefixInit := .ok (),
    envLock := .ok (), sitePackages := .ok spFreshW, tags := .ok (),
    hashFromRequirements := .ok (), torchStrategy := .ok (), flatIndex := .ok (),
    buildHasher := .ok (), readAndParseLock := .error "no pylock file",
    lockToResolution := .error "no pylock file", hashFromResolution := .ok (),
    resolve := .ok ⟨0⟩, reportDiagnostic := fun e => some e, install := .ok (),
    diagnoseResolution := .ok (), diagnoseEnvironment := .ok () }

/-- Arguments satisfying all six gating conditions. -/
def aFreshW : PipInstallArgs :=
  { requirements := ["requests"], constraints := [], overrides := [], pylock := none,
    source_trees := [], groups := [], reinstall := .noReinstall, upgrade := .noUpgrade,
    modifications := .sufficient, hash_checking := none, torch_backend := none,
    strict := false, dry_run := false, break_system_packages := false, target := none,
    prefix_dir := none }

/-- An interpreter carrying an `EXTERNALLY-MANAGED` marker with a message. -/
def interpEMW : Interpreter := ⟨"3.12.0", some (some "managed by the OS distribution")⟩

/-- A system environment on that interpreter. -/
def envSysW : Environment := ⟨interpEMW, "/usr", none, none⟩

/-- Site-packages reporting one unsatisfied requirement. -/
def spUnsatW : SitePackages := ⟨.ok (.unsatisfied "numpy")⟩

/-- Oracles for a fully successful `--target` run on the managed
interpreter. -/
def oTargetW : PipInstallOracles :=
  { findEnvironment := .ok envSysW, targetInit := .ok (), prefixInit := .ok (),
    envLock := .ok (), sitePackages := .ok spUnsatW, tags := .ok (),
    hashFromRequirements := .ok (), torchStrategy := .ok (), flatIndex := .ok (),
    buildHasher := .ok (), readAndParseLock := .error "no pylock file",
    lockToResolution := .error "no pylock file", hashFromResolution := .ok (),
    resolve := .ok ⟨1⟩, reportDiagnostic := fun e => some e, install := .ok (),
    diagnoseResolution := .ok (), diagnoseEnvironment := .ok () }

/-- Arguments for `pip install --target ./libs numpy` without
`--break-system-packages`. -/
def aTargetW : PipInstallArgs :=
  { requirements := ["numpy"], constraints := [], overrides := [], pylock := none,
    source_trees := [], groups := [], reinstall := .noReinstall, upgrade := .noUpgrade,
    modifications := .sufficient, hash_checking := none, torch_backend := none,
    strict := false, dry_run := false, break_system_packages := false,
    target := some "./libs", prefix_dir := none }

/-- A `requires-python` specifier matching only Python 3.11. -/
def vspecFailW : VersionSpecifiers := ⟨fun v => v == "3.11.0", ">=3.11,<3.12"⟩

/-- A lock file declaring that requirement. -/
def lockFailW : PylockToml := ⟨some vspecFailW, [], [], []⟩

/-- Oracles for a lock-file run against a Python 3.12 interpreter. -/
def oLockW : PipInstallOracles :=
  { findEnvironment := .ok envW, targetInit := .ok (), prefixInit := .ok (),
    envLock := .ok (), sitePackages := .ok spFreshW, tags := .ok (),
    hashFromRequirements := .ok (), torchStrategy := .ok (), flatIndex := .ok (),
    buildHasher := .ok (), readAndParseLock := .ok lockFailW,
    lockToResolution := .ok ⟨2⟩, hashFromResolution := .ok (),
    resolve := .error "resolver not reached", reportDiagnostic := fun e => some e,
    install := .ok (), diagnoseResolution := .ok (), diagnoseEnvironment := .ok () }

/-- Arguments for `pip install --pylock pylock.toml`. -/
def aLockW : PipInstallArgs :=
  { requirements := [], constraints := [], overrides := [], pylock := some "pylock.toml",
    source_trees := [], groups := [], reinstall := .noReinstall, upgrade := .noUpgrade,
    modifications := .sufficient, hash_checking := none, torch_backend := none,
    strict := false, dry_run := false, break_system_packages := false, target := none,
    prefix_dir := none }

/-- A `site-packages` index with nothing installed. -/
def uSpEmptyW : UninstallSitePackages := ⟨fun _ => [], fun _ => []⟩

/-- Uninstall oracles over an empty environment. -/
def uOracleW : PipUninstallOracles :=
  ⟨.ok envW, .ok (), .ok (), .ok (), .ok uSpEmptyW, fun _ => .ok ⟨0, 0⟩⟩

/-- `uninstall --dry-run missing-pkg`. -/
def uArgsDryW : PipUninstallArgs := ⟨[.named "missing-pkg"], false, none, none, true⟩

/-- `uninstall missing-pkg` without `--dry-run`. -/
def uArgsW : PipUninstallArgs := ⟨[.named "missing-pkg"], false, none, none, false⟩

/-! ## Theorems -/

/-- C2: For every boolean flag pair `(yes, no)`, the collapse function is total
and returns `Some(true)` for `(true, false)`, `Some(false)` for `(false, true)`,
`None` for `(false, false)`; and for `(true, true)` it is fatal, exiting the
process with code 2 with a message naming `--N` and `--no-N` for the flag's
human name `N`. -/
theorem flag_truth_table (name : String) :
    flag true false name = .ok (some true) ∧
    flag false true name = .ok (some false) ∧
    flag false false name = .ok none ∧
    flag true true name = .error ⟨2, flagConflictMessage name⟩ ∧
    Mentions (flagConflictMessage name) ("--" ++ name) ∧
    Mentions (flagConflictMessage name) ("--no-" ++ name) := by
  refine ⟨rfl, rfl, rfl, rfl, ?_, ?_⟩
  · refine ⟨"error" ++ ":" ++ " `",
      "` and `" ++ ("--no-" ++ name) ++
        "` cannot be used together. " ++
        "Boolean flags on different levels are currently not supported " ++
        "(https://github.com/clap-rs/clap/issues/6049)", ?_⟩
    simp [flagConflictMessage, String.append_assoc]
  · refine ⟨"error" ++ ":" ++ " `" ++ ("--" ++ name) ++ "` and `",
      "` cannot be used together. " ++
        "Boolean flags on different levels are currently not supported " ++
        "(https://github.com/clap-rs/clap/issues/6049)", ?_⟩
    simp [flagConflictMessage, String.append_assoc]

/-- C5: For every target triple and every base marker environment,
`TargetTriple::markers` returns the base environment with exactly the six
platform marker fields (`os_name`, `platform_machine`, `platform_system`,
`sys_platform`, `platform_release`, `platform_version`) replaced by the
triple's projections, and every other field — in particular the Python version
markers — unchanged. -/
theorem markers_overrides_platform_preserves_python
    (t : TargetTriple) (base : MarkerEnvironment) :
    (t.markers base).os_name = t.os_name ∧
    (t.markers base).platform_machine = t.platform_machine ∧
    (t.markers base).platform_system = t.platform_system ∧
    (t.markers base).sys_platform = t.sys_platform ∧
    (t.markers base).platform_release = t.platform_release ∧
    (t.markers base).platform_version = t.platform_version ∧
    (t.markers base).implementation_name = base.implementation_name ∧
    (t.markers base).implementation_version = base.implementation_version ∧
    (t.markers base).platform_python_implementation = base.platform_python_implementation ∧
    (t.markers base).python_full_version = base.python_full_version ∧
    (t.markers base).python_version = base.python_version :=
  ⟨rfl, rfl, rfl, rfl, rfl, rfl, rfl, rfl, rfl, rfl, rfl⟩

/-- Membership in the per-name entry vector. -/
theorem mem_entriesFor {dm : DependencyMetadata} {package : String} {e : StaticMetadata} :
    e ∈ dm.entriesFor package ↔ e ∈ dm ∧ e.name = package := by
  simp [DependencyMetadata.entriesFor]

/-- C3: For every static metadata lookup with `(name, Some(version))`: a result
is returned iff an exact-version entry or a versionless (global) entry exists
for that name, preferring exact (the result is built from the first exact
match when one exists); with `(name, None)`: a result is returned iff exactly
one entry exists for the name and it carries a version — ambiguous lookups
return a miss. -/
theorem dependency_metadata_get_policy (dm : DependencyMetadata) (package : String) :
    (∀ v : String,
      ((dm.get package (some v)).isSome ↔
        ((∃ e ∈ dm, e.name = package ∧ e.version = some v) ∨
         (∃ e ∈ dm, e.name = package ∧ e.version = none))) ∧
      (∀ m, (dm.entriesFor package).find? (fun entry => entry.version = some v) = some m →
        dm.get package (some v) =
          some ⟨m.name, v, m.requires_dist, m.requires_python, m.provides_extras, false⟩)) ∧
    ((dm.get package none).isSome ↔
      ∃ e v, dm.entriesFor package = [e] ∧ e.version = some v) := by
  constructor
  · intro v
    constructor
    · unfold DependencyMetadata.get
      cases hE : (dm.entriesFor package).isEmpty
      · simp only [hE, Bool.false_eq_true, if_false]
        cases hf : (dm.entriesFor package).find? (fun entry => entry.version = some v) with
        | some m =>
          simp only [hf, Option.isSome_some, true_iff]
          exact Or.inl ⟨m, (mem_entriesFor.mp (List.mem_of_find?_eq_some hf)).1,
            (mem_entriesFor.mp (List.mem_of_find?_eq_some hf)).2,
            by simpa using List.find?_some hf⟩
        | none =>
          cases hg : (dm.entriesFor package).find? (fun entry => entry.version = none) with
          | some m =>
            simp only [hf, hg, Option.isSome_some, true_iff]
            exact Or.inr ⟨m, (mem_entriesFor.mp (List.mem_of_find?_eq_some hg)).1,
              (mem_entriesFor.mp (List.mem_of_find?_eq_some hg)).2,
              by simpa using List.find?_some hg⟩
          | none =>
            simp only [hf, hg, Option.isSome_none, Bool.false_eq_true, false_iff]
            rw [List.find?_eq_none] at hf hg
            rintro (⟨e, he, hname, hv⟩ | ⟨e, he, hname, hv⟩)
            · exact hf e (mem_entriesFor.mpr ⟨he, hname⟩) (by simpa using hv)
            · exact hg e (mem_entriesFor.mpr ⟨he, hname⟩) (by simpa using hv)
      · simp only [hE, if_true, Option.isSome_none, Bool.false_eq_true, false_iff]
        have hnil : dm.entriesFor package = [] := by
          simpa using hE
        rintro (⟨e, he, hname, _⟩ | ⟨e, he, hname, _⟩)
        · exact absurd (mem_entriesFor.mpr ⟨he, hname⟩) (by simp [hnil])
        · exact absurd (mem_entriesFor.mpr ⟨he, hname⟩) (by simp [hnil])
    · intro m hm
      unfold DependencyMetadata.get
      have hE : (dm.entriesFor package).isEmpty = false := by
        cases hEc : (dm.entriesFor package).isEmpty
        · rfl
        · exfalso
          have : dm.entriesFor package = [] := by simpa using hEc
          rw [this] at hm
          simp at hm
      simp only [hE, Bool.false_eq_true, if_false, hm]
  · unfold DependencyMetadata.get
    cases hL : dm.entriesFor package with
    | nil => simp
    | cons a L' =>
      cases L' with
      | nil =>
        cases hv : a.version with
        | none => simp [hv]
        | some v0 =>
          simp only [List.isEmpty_cons, Bool.false_eq_true, if_false, hv,
            Option.isSome_some, true_iff]
          exact ⟨a, v0, rfl, hv⟩
      | cons b L'' =>
        simp only [List.isEmpty_cons, Bool.false_eq_true, if_false, Option.isSome_none,
          false_iff]
        rintro ⟨e, v0, he, -⟩
        simp at he

/-- C6 counterexample: on the `From<ResolverArgs> for PipOptions` conversion —
one of the two normalization sites the claim covers — an empty
`upgrade_package` list does NOT normalize to `None`: it is wrapped as
`Some(vec![])`. -/
theorem empty_upgrade_package_not_none_on_pip_options_path :
    resolverArgsEmpty.upgrade_package = [] ∧
    Except.map PipOptions.upgrade_package (PipOptions.ofResolverArgs resolverArgsEmpty) =
      .ok (some []) ∧
    some ([] : List String) ≠ (none : Option (List String)) :=
  ⟨rfl, rfl, by simp⟩

/-- C6 (amended): in `resolver_installer_options`, every per-package option
list (`upgrade_package`, `reinstall_package`, `no_build_isolation_package`,
`no_build_package`, `no_binary_package`) normalizes an empty input list to
`None` and a non-empty one to `Some` of its contents; the
`From<ResolverArgs> for PipOptions` conversion instead wraps its per-package
lists in `Some` unconditionally. -/
theorem per_package_list_normalization :
    (∀ (args : ResolverInstallerArgs) (build_args : BuildOptionsArgs)
        (opts : ResolverInstallerOptions),
      resolver_installer_options args build_args = .ok opts →
      opts.upgrade_package =
        (if args.upgrade_package.isEmpty then none else some args.upgrade_package) ∧
      opts.reinstall_package =
        (if args.reinstall_package.isEmpty then none else some args.reinstall_package) ∧
      opts.no_build_isolation_package =
        (if args.no_build_isolation_package.isEmpty then none
          else some args.no_build_isolation_package) ∧
      opts.no_build_package =
        (if build_args.no_build_package.isEmpty then none
          else some build_args.no_build_package) ∧
      opts.no_binary_package =
        (if build_args.no_binary_package.isEmpty then none
          else some build_args.no_binary_package)) ∧
    (∀ (args : ResolverArgs) (p : PipOptions),
      PipOptions.ofResolverArgs args = .ok p →
      p.upgrade_package = some args.upgrade_package ∧
      p.no_build_isolation_package = some args.no_build_isolation_package) := by
  constructor
  · intro args build_args opts h
    unfold resolver_installer_options at h
    cases h1 : flag args.upgrade args.no_upgrade "upgrade" with
    | error e => rw [h1] at h; simp [Bind.bind, Except.bind, Functor.map, Except.map] at h
    | ok u =>
      rw [h1] at h
      simp only [Bind.bind, Except.bind] at h
      cases h2 : flag args.reinstall args.no_reinstall "reinstall" with
      | error e => rw [h2] at h; simp [Bind.bind, Except.bind, Functor.map, Except.map] at h
      | ok ri =>
        rw [h2] at h
        simp only [Bind.bind, Except.bind] at h
        cases h3 : flag args.no_build_isolation args.build_isolation "build-isolation" with
        | error e => rw [h3] at h; simp [Bind.bind, Except.bind, Functor.map, Except.map] at h
        | ok bi =>
          rw [h3] at h
          simp only [Bind.bind, Except.bind] at h
          cases h4 : flag args.compile_bytecode args.no_compile_bytecode "compile-bytecode" with
          | error e => rw [h4] at h; simp [Bind.bind, Except.bind, Functor.map, Except.map] at h
          | ok cb =>
            rw [h4] at h
            simp only [Bind.bind, Except.bind] at h
            cases h5 : flag build_args.no_build build_args.build "build" with
            | error e => rw [h5] at h; simp [Bind.bind, Except.bind, Functor.map, Except.map] at h
            | ok nb =>
              rw [h5] at h
              simp only [Bind.bind, Except.bind] at h
              cases h6 : flag build_args.no_binary build_args.binary "binary" with
              | error e => rw [h6] at h; simp [Bind.bind, Except.bind, Functor.map, Except.map] at h
              | ok nbin =>
                rw [h6] at h
                simp only [Bind.bind, Except.bind, Functor.map, Except.map,
                  pure, Except.pure, Except.ok.injEq] at h
                subst h
                exact ⟨rfl, rfl, rfl, rfl, rfl⟩
  · intro args p h
    unfold PipOptions.ofResolverArgs at h
    cases h1 : flag args.upgrade args.no_upgrade "no-upgrade" with
    | error e => rw [h1] at h; simp [Bind.bind, Except.bind, Functor.map, Except.map] at h
    | ok u =>
      rw [h1] at h
      simp only [Bind.bind, Except.bind] at h
      cases h2 : flag args.no_build_isolation args.build_isolation "build-isolation" with
      | error e => rw [h2] at h; simp [Bind.bind, Except.bind, Functor.map, Except.map] at h
      | ok bi =>
        rw [h2] at h
        simp only [Bind.bind, Except.bind, Functor.map, Except.map,
          pure, Except.pure, Except.ok.injEq] at h
        subst h
        exact ⟨rfl, rfl⟩

/-- C6 witness: at the concrete records above, the non-empty `upgrade_package`
list normalizes to `Some` of its contents and the empty `reinstall_package`
list to `None`. -/
theorem per_package_list_normalization_witness :
    riOptsW.upgrade_package = some ["numpy"] ∧ riOptsW.reinstall_package = none :=
  ⟨(per_package_list_normalization.1 riArgsW buildArgsW riOptsW rfl).1,
   (per_package_list_normalization.1 riArgsW buildArgsW riOptsW rfl).2.1⟩

/-- Splitting at `.` of a dot-free string yields the string as its only
part. -/
theorem splitDots_no_dot (s : List Char) (h : '.' ∉ s) : splitDots s = [s] := by
  induction s with
  | nil => rfl
  | cons c rest ih =>
    have hc : ¬(c = '.') := fun hc => h (hc ▸ List.mem_cons_self c rest)
    have hr : '.' ∉ rest := fun hr => h (List.mem_cons_of_mem _ hr)
    simp [splitDots, hc, ih hr]

/-- C10: For the macOS target triples (the `macos` alias,
`aarch64-apple-darwin`, `x86_64-apple-darwin`), the `Platform` projection reads
`MACOSX_DEPLOYMENT_TARGET` at projection time and uses `(13, 0)` whenever the
variable is unset or does not parse as a dotted numeric version (a missing
minor component defaults to `0`); no other target triple's projection depends
on the environment. -/
theorem macos_deployment_target_policy :
    (∀ env : Option (List Char),
      TargetTriple.platform .Macos env =
        ⟨Os.macos ((macos_deployment_target env).getD (13, 0)).1
          ((macos_deployment_target env).getD (13, 0)).2, Arch.aarch64⟩ ∧
      TargetTriple.platform .Aarch64AppleDarwin env =
        ⟨Os.macos ((macos_deployment_target env).getD (13, 0)).1
          ((macos_deployment_target env).getD (13, 0)).2, Arch.aarch64⟩ ∧
      TargetTriple.platform .X8664AppleDarwin env =
        ⟨Os.macos ((macos_deployment_target env).getD (13, 0)).1
          ((macos_deployment_target env).getD (13, 0)).2, Arch.x86_64⟩) ∧
    (∀ env, macos_deployment_target env = none →
      TargetTriple.platform .Macos env = ⟨Os.macos 13 0, Arch.aarch64⟩ ∧
      TargetTriple.platform .Aarch64AppleDarwin env = ⟨Os.macos 13 0, Arch.aarch64⟩ ∧
      TargetTriple.platform .X8664AppleDarwin env = ⟨Os.macos 13 0, Arch.x86_64⟩) ∧
    macos_deployment_target none = none ∧
    (∀ s n, '.' ∉ s → parseU16 s = some n →
      macos_deployment_target (some s) = some (n, 0)) ∧
    (∀ t : TargetTriple, t ≠ .Macos → t ≠ .Aarch64AppleDarwin → t ≠ .X8664AppleDarwin →
      ∀ e e', TargetTriple.platform t e = TargetTriple.platform t e') := by
  refine ⟨?_, ?_, rfl, ?_, ?_⟩
  · intro env
    rcases h : (macos_deployment_target env).getD (13, 0) with ⟨ma, mi⟩
    exact ⟨by simp [TargetTriple.platform, h], by simp [TargetTriple.platform, h],
      by simp [TargetTriple.platform, h]⟩
  · intro env h
    exact ⟨by simp [TargetTriple.platform, h], by simp [TargetTriple.platform, h],
      by simp [TargetTriple.platform, h]⟩
  · intro s n hdot hparse
    have h0 : parseU16 ['0'] = some 0 := rfl
    simp [macos_deployment_target, splitDots_no_dot s hdot, hparse, h0]
  · intro t h1 h2 h3 e e'
    cases t <;> first
      | rfl
      | exact absurd rfl h1
      | exact absurd rfl h2
      | exact absurd rfl h3

/-- C10 witness: a non-numeric deployment target falls back to `(13, 0)`; a
major-only value parses with minor `0`; a non-macOS triple ignores the
environment. -/
theorem macos_deployment_target_policy_witness :
    TargetTriple.platform .Macos (some ['o', 'o', 'p', 's']) =
      ⟨Os.macos 13 0, Arch.aarch64⟩ ∧
    macos_deployment_target (some ['1', '4']) = some (14, 0) ∧
    TargetTriple.platform .Linux (some ['1', '4']) = TargetTriple.platform .Linux none :=
  ⟨(macos_deployment_target_policy.2.1 (some ['o', 'o', 'p', 's']) (by decide)).1,
   macos_deployment_target_policy.2.2.2.1 ['1', '4'] 14 (by decide) (by decide),
   macos_deployment_target_policy.2.2.2.2 .Linux (by decide) (by decide) (by decide) _ _⟩

/-- C3 witness: the exact-version entry wins at a concrete lookup. -/
theorem dependency_metadata_get_policy_witness :
    dmW.get "torch" (some "2.0.0") =
      some ⟨"torch", "2.0.0", ["numpy"], none, [], false⟩ :=
  ((dependency_metadata_get_policy dmW "torch").1 "2.0.0").2
    ⟨"torch", some "2.0.0", ["numpy"], none, []⟩ (by decide)

/-- `installStage` never touches the fast-path flag. -/
theorem installStage_satisfactionChecked (a : PipInstallArgs) (o : PipInstallOracles)
    (env : Environment) (t : Trace) :
    (installStage a o env t).trace.satisfactionChecked = t.satisfactionChecked := by
  unfold installStage
  repeat' split
  all_goals rfl

/-- `lockProject` never touches the fast-path flag. -/
theorem lockProject_satisfactionChecked (a : PipInstallArgs) (o : PipInstallOracles)
    (env : Environment) (t : Trace) :
    (lockProject a o env t).trace.satisfactionChecked = t.satisfactionChecked := by
  unfold lockProject
  repeat' split
  all_goals simp [installStage_satisfactionChecked]

/-- `resolutionStage` never touches the fast-path flag. -/
theorem resolutionStage_satisfactionChecked (a : PipInstallArgs) (o : PipInstallOracles)
    (env : Environment) (t : Trace) :
    (resolutionStage a o env t).trace.satisfactionChecked = t.satisfactionChecked := by
  unfold resolutionStage
  repeat' split
  all_goals simp [installStage_satisfactionChecked, lockProject_satisfactionChecked]

/-- `afterFastPath` never touches the fast-path flag. -/
theorem afterFastPath_satisfactionChecked (a : PipInstallArgs) (o : PipInstallOracles)
    (env : Environment) (t : Trace) :
    (afterFastPath a o env t).trace.satisfactionChecked = t.satisfactionChecked := by
  unfold afterFastPath
  repeat' split
  all_goals simp [resolutionStage_satisfactionChecked]

/-- The gate boolean holds exactly when the six conditions hold. -/
theorem fastPathGate_eq_true_iff (a : PipInstallArgs) :
    fastPathGate a = true ↔
      (a.reinstall = .noReinstall ∧ a.upgrade = .noUpgrade ∧ a.source_trees = [] ∧
       a.groups = [] ∧ a.pylock = none ∧ a.modifications = .sufficient) := by
  cases hr : a.reinstall <;> cases hu : a.upgrade <;> cases hm : a.modifications <;>
    simp [fastPathGate, Reinstall.is_none, Upgrade.is_none, List.isEmpty_iff,
      Option.isNone_iff_eq_none, hr, hu, hm, and_assoc]

/-- C1: the satisfaction fast-path check of `pip_install` is performed iff all
six gating conditions hold (no reinstall, no upgrade, no source-tree
requirements, no dependency groups, no `pylock.toml`, modifications mode
`Sufficient`); when the check reports every requirement satisfied, the command
returns success without invoking the resolver or the installer.  Stated for
runs that reach the check: environment binding succeeded and the
externally-managed policy did not abort. -/
theorem fast_path_gate_iff (a : PipInstallArgs) (o : PipInstallOracles)
    (env0 env : Environment) (sp : SitePackages)
    (hfind : o.findEnvironment = .ok env0)
    (hwrap : wrapEnv a.target a.prefix_dir o.targetInit o.prefixInit env0 = .ok env)
    (hem : env.is_externally_managed = none ∨ a.break_system_packages = true)
    (hsp : o.sitePackages = .ok sp) :
    ((pipInstall a o).trace.satisfactionChecked = true ↔
      (a.reinstall = .noReinstall ∧ a.upgrade = .noUpgrade ∧ a.source_trees = [] ∧
       a.groups = [] ∧ a.pylock = none ∧ a.modifications = .sufficient)) ∧
    (∀ reqs, sp.satisfies = .ok (.fresh reqs) → fastPathGate a = true →
      (pipInstall a o).result = .ok .success ∧
      (pipInstall a o).trace.resolverInvoked = false ∧
      (pipInstall a o).trace.installerInvoked = false) := by
  have hpi : pipInstall a o = fastPathStage a o env := by
    rcases hem with h | h
    · simp only [pipInstall, hfind, hwrap, h]
    · cases hm : env.is_externally_managed with
      | none => simp only [pipInstall, hfind, hwrap, hm]
      | some m => simp only [pipInstall, hfind, hwrap, hm, h, if_true]
  rw [hpi]
  unfold fastPathStage
  rw [hsp]
  constructor
  · rw [← fastPathGate_eq_true_iff]
    by_cases hg : fastPathGate a = true
    · cases hsat : sp.satisfies with
      | error e => simp [hg, hsat]
      | ok r =>
        cases r with
        | fresh reqs => simp [hg, hsat]
        | unsatisfied req => simp [hg, hsat, afterFastPath_satisfactionChecked]
    · simp only [Bool.not_eq_true] at hg
      simp [hg, afterFastPath_satisfactionChecked]
  · intro reqs hfresh hgate
    simp [hgate, hfresh]

/-- C1 witness: with the gate satisfied and a fresh environment, the concrete
run returns success with neither resolver nor installer invoked. -/
theorem fast_path_gate_iff_witness :
    (pipInstall aFreshW oFreshW).result = .ok .success ∧
    (pipInstall aFreshW oFreshW).trace.resolverInvoked = false ∧
    (pipInstall aFreshW oFreshW).trace.installerInvoked = false :=
  (fast_path_gate_iff aFreshW oFreshW envW envW spFreshW rfl rfl (Or.inl rfl) rfl).2
    [] rfl (by decide)

/-- When every stage-5/6/7 collaborator succeeds on the solver path,
`afterFastPath` runs the resolver and installer and returns success. -/
theorem afterFastPath_success_run (a : PipInstallArgs) (o : PipInstallOracles)
    (env : Environment) (t : Trace) (res : Resolution)
    (hpylock : a.pylock = none)
    (htags : o.tags = .ok ())
    (hhash : (if a.hash_checking.isSome then o.hashFromRequirements else Except.ok ()) = .ok ())
    (htorch : (if a.torch_backend.isSome then o.torchStrategy else Except.ok ()) = .ok ())
    (hflat : o.flatIndex = .ok ())
    (hbh : (if a.hash_checking.isSome then o.buildHasher else Except.ok ()) = .ok ())
    (hres : o.resolve = .ok res)
    (hinst : o.install = .ok ())
    (hdiag : o.diagnoseResolution = .ok ())
    (hstrict : a.strict = false) :
    afterFastPath a o env t =
      ⟨.ok .success,
        { t with
          resolverInvoked := true
          installerInvoked := true
          installTarget := env.targetDir }⟩ := by
  simp only [afterFastPath, htags, hhash, htorch, hflat, hbh, resolutionStage, hpylock,
    installStage, hres, hinst, hdiag, hstrict]
  simp

/-- C4: with `--target` supplied, `pip_install` on an interpreter that reports
`EXTERNALLY-MANAGED` succeeds without `--break-system-packages`: the
externally-managed check is suppressed and installation proceeds into the
target directory. -/
theorem target_suppresses_externally_managed
    (a : PipInstallArgs) (o : PipInstallOracles) (env0 : Environment) (dir : String)
    (sp : SitePackages) (req : String) (res : Resolution)
    (htarget : a.target = some dir)
    (hbsp : a.break_system_packages = false)
    (hmanaged : env0.interp.externally_managed.isSome = true)
    (hfind : o.findEnvironment = .ok env0)
    (htinit : o.targetInit = .ok ())
    (hsp : o.sitePackages = .ok sp)
    (hsat : sp.satisfies = .ok (.unsatisfied req))
    (hpylock : a.pylock = none)
    (htags : o.tags = .ok ())
    (hhash : (if a.hash_checking.isSome then o.hashFromRequirements else Except.ok ()) = .ok ())
    (htorch : (if a.torch_backend.isSome then o.torchStrategy else Except.ok ()) = .ok ())
    (hflat : o.flatIndex = .ok ())
    (hbh : (if a.hash_checking.isSome then o.buildHasher else Except.ok ()) = .ok ())
    (hres : o.resolve = .ok res)
    (hinst : o.install = .ok ())
    (hdiag : o.diagnoseResolution = .ok ())
    (hstrict : a.strict = false) :
    (pipInstall a o).result = .ok .success ∧
    (pipInstall a o).trace.installerInvoked = true ∧
    (pipInstall a o).trace.installTarget = some dir := by
  have henv : wrapEnv a.target a.prefix_dir o.targetInit o.prefixInit env0 =
      .ok { env0 with targetDir := some dir } := by
    simp [wrapEnv, htarget, htinit, Except.map]
  have hem : ({ env0 with targetDir := some dir } : Environment).is_externally_managed =
      none := by
    simp [Environment.is_externally_managed]
  have hpi : pipInstall a o = fastPathStage a o { env0 with targetDir := some dir } := by
    simp only [pipInstall, hfind, henv, hem]
  have hrun : ∀ t, afterFastPath a o { env0 with targetDir := some dir } t =
      ⟨.ok .success,
        { t with
          resolverInvoked := true
          installerInvoked := true
          installTarget := some dir }⟩ := by
    intro t
    simpa using afterFastPath_success_run a o { env0 with targetDir := some dir } t res
      hpylock htags hhash htorch hflat hbh hres hinst hdiag hstrict
  rw [hpi]
  unfold fastPathStage
  rw [hsp]
  by_cases hg : fastPathGate a = true
  · simp [hg, hsat, hrun]
  · simp only [Bool.not_eq_true] at hg
    simp [hg, hrun]

/-- C4 witness: the concrete `--target` run on the externally-managed
interpreter succeeds and installs into the target directory. -/
theorem target_suppresses_externally_managed_witness :
    (pipInstall aTargetW oTargetW).result = .ok .success ∧
    (pipInstall aTargetW oTargetW).trace.installerInvoked = true ∧
    (pipInstall aTargetW oTargetW).trace.installTarget = some "./libs" :=
  target_suppresses_externally_managed aTargetW oTargetW envSysW "./libs" spUnsatW
    "numpy" ⟨1⟩ rfl rfl rfl rfl rfl rfl rfl rfl rfl rfl rfl rfl rfl rfl rfl rfl rfl

/-- A run whose interpreter binding succeeds and whose externally-managed
policy does not abort reaches the fast-path stage. -/
theorem pipInstall_reaches_fastPath (a : PipInstallArgs) (o : PipInstallOracles)
    (env0 env : Environment)
    (hfind : o.findEnvironment = .ok env0)
    (hwrap : wrapEnv a.target a.prefix_dir o.targetInit o.prefixInit env0 = .ok env)
    (hem : env.is_externally_managed = none ∨ a.break_system_packages = true) :
    pipInstall a o = fastPathStage a o env := by
  rcases hem with h | h
  · simp only [pipInstall, hfind, hwrap, h]
  · cases hm : env.is_externally_managed with
    | none => simp only [pipInstall, hfind, hwrap, hm]
    | some m => simp only [pipInstall, hfind, hwrap, hm, h, if_true]

/-- `installStage` never touches the lock-projection flag. -/
theorem installStage_lockProjected (a : PipInstallArgs) (o : PipInstallOracles)
    (env : Environment) (t : Trace) :
    (installStage a o env t).trace.lockProjected = t.lockProjected := by
  unfold installStage
  repeat' split
  all_goals rfl

/-- `lockProject` always sets the lock-projection flag. -/
theorem lockProject_lockProjected (a : PipInstallArgs) (o : PipInstallOracles)
    (env : Environment) (t : Trace) :
    (lockProject a o env t).trace.lockProjected = true := by
  unfold lockProject
  repeat' split
  all_goals simp [installStage_lockProjected]

/-- C9: on the lock-file path of `pip_install` (`--pylock` given), a
`requires-python` constraint that does not contain the interpreter's Python
version fails the command with an error before producing a resolution; when
the constraint contains the version, or is absent, the lock proceeds to
projection. -/
theorem pylock_requires_python_gate
    (a : PipInstallArgs) (o : PipInstallOracles) (env0 env : Environment)
    (sp : SitePackages) (p : String) (lock : PylockToml)
    (hfind : o.findEnvironment = .ok env0)
    (hwrap : wrapEnv a.target a.prefix_dir o.targetInit o.prefixInit env0 = .ok env)
    (hem : env.is_externally_managed = none ∨ a.break_system_packages = true)
    (hsp : o.sitePackages = .ok sp)
    (hpylock : a.pylock = some p)
    (htags : o.tags = .ok ())
    (hhash : (if a.hash_checking.isSome then o.hashFromRequirements else Except.ok ()) = .ok ())
    (htorch : (if a.torch_backend.isSome then o.torchStrategy else Except.ok ()) = .ok ())
    (hflat : o.flatIndex = .ok ())
    (hbh : (if a.hash_checking.isSome then o.buildHasher else Except.ok ()) = .ok ())
    (hlock : o.readAndParseLock = .ok lock) :
    (∀ rp, lock.requires_python = some rp →
      rp.contains env.interp.python_version = false →
      (∃ e, (pipInstall a o).result = .error e) ∧
      (pipInstall a o).trace.lockProjected = false ∧
      (pipInstall a o).trace.resolverInvoked = false) ∧
    (∀ rp, lock.requires_python = some rp →
      rp.contains env.interp.python_version = true →
      (pipInstall a o).trace.lockProjected = true) ∧
    (lock.requires_python = none →
      (pipInstall a o).trace.lockProjected = true) := by
  have hgate : fastPathGate a = false := by
    simp [fastPathGate, hpylock]
  have hpi : pipInstall a o = resolutionStage a o env {} := by
    rw [pipInstall_reaches_fastPath a o env0 env hfind hwrap hem]
    unfold fastPathStage
    rw [hsp]
    simp only [hgate, Bool.false_eq_true, if_false, afterFastPath, htags, hhash, htorch,
      hflat, hbh]
  rw [hpi]
  unfold resolutionStage
  rw [hpylock, hlock]
  refine ⟨?_, ?_, ?_⟩
  · intro rp hrp hcontains
    simp only [hrp, hcontains]
    exact ⟨⟨_, rfl⟩, rfl, rfl⟩
  · intro rp hrp hcontains
    simp only [hrp, hcontains]
    simp [lockProject_lockProjected]
  · intro hnone
    simp only [hnone]
    simp [lockProject_lockProjected]

/-- C9 witness: the concrete lock requiring Python 3.11 fails against the
3.12 interpreter before any resolution is produced. -/
theorem pylock_requires_python_gate_witness :
    (∃ e, (pipInstall aLockW oLockW).result = .error e) ∧
    (pipInstall aLockW oLockW).trace.lockProjected = false ∧
    (pipInstall aLockW oLockW).trace.resolverInvoked = false :=
  (pylock_requires_python_gate aLockW oLockW envW envW spFreshW "pylock.toml" lockFailW
    rfl rfl (Or.inl rfl) rfl rfl rfl rfl rfl rfl rfl rfl).1 vspecFailW rfl rfl

/-- The dedup loop yields a sublist of its input. -/
theorem dedupByKeyAux_sublist {α κ : Type} [DecidableEq κ] (key : α → κ) :
    ∀ (l : List α) (p : κ), List.Sublist (dedupByKeyAux key p l) l := by
  intro l
  induction l with
  | nil => intro p; simp [dedupByKeyAux]
  | cons b rest ih =>
    intro p
    by_cases h : key b = p
    · rw [dedupByKeyAux, if_pos h]
      exact (ih p).trans (List.sublist_cons_self b rest)
    · rw [dedupByKeyAux, if_neg h]
      exact List.cons_sublist_cons.mpr (ih (key b))

/-- Adjacent-run deduplication yields a sublist. -/
theorem dedupByKey_sublist {α κ : Type} [DecidableEq κ] (key : α → κ) (l : List α) :
    List.Sublist (dedupByKey key l) l := by
  cases l with
  | nil => simp [dedupByKey]
  | cons a rest =>
    rw [dedupByKey]
    exact List.cons_sublist_cons.mpr (dedupByKeyAux_sublist key rest (key a))

/-- The dedup loop produces adjacent-distinct keys, and its first kept element
has a key different from `prev`. -/
theorem dedupByKeyAux_spec {α κ : Type} [DecidableEq κ] (key : α → κ) :
    ∀ (l : List α) (p : κ),
      List.Chain' (fun a b => key a ≠ key b) (dedupByKeyAux key p l) ∧
      (∀ b ∈ (dedupByKeyAux key p l).head?, key b ≠ p) := by
  intro l
  induction l with
  | nil => intro p; exact ⟨List.chain'_nil, by simp [dedupByKeyAux]⟩
  | cons b rest ih =>
    intro p
    by_cases h : key b = p
    · rw [dedupByKeyAux, if_pos h]
      exact ih p
    · rw [dedupByKeyAux, if_neg h]
      refine ⟨List.chain'_cons'.mpr ⟨?_, (ih (key b)).1⟩, ?_⟩
      · intro c hc
        exact fun hbc => (ih (key b)).2 c hc hbc.symm
      · intro c hc
        rw [List.head?_cons, Option.mem_some_iff] at hc
        exact hc ▸ h

/-- After adjacent-run deduplication, neighbouring keys differ. -/
theorem dedupByKey_chain' {α κ : Type} [DecidableEq κ] (key : α → κ) (l : List α) :
    List.Chain' (fun a b => key a ≠ key b) (dedupByKey key l) := by
  cases l with
  | nil => simp [dedupByKey]
  | cons a rest =>
    rw [dedupByKey]
    refine List.chain'_cons'.mpr ⟨?_, (dedupByKeyAux_spec key rest (key a)).1⟩
    intro c hc
    exact fun hac => (dedupByKeyAux_spec key rest (key a)).2 c hc hac.symm

/-- Two adjacent-relation chains combine pointwise. -/
theorem chain'_conj {α : Type} {R S : α → α → Prop} :
    ∀ {l : List α}, l.Chain' R → l.Chain' S → l.Chain' (fun a b => R a b ∧ S a b)
  | [], _, _ => List.chain'_nil
  | [_], _, _ => List.chain'_singleton _
  | _ :: _ :: _, hR, hS => by
    rw [List.chain'_cons] at hR hS ⊢
    exact ⟨⟨hR.1, hS.1⟩, chain'_conj hR.2 hS.2⟩

/-- Deduplicating a key-sorted list leaves pairwise-distinct keys. -/
theorem dedupByKey_pairwise_ne {α κ : Type} [LinearOrder κ] [DecidableEq κ] (key : α → κ)
    (l : List α)
    (hsorted : l.Pairwise (fun a b => key a ≤ key b)) :
    ((dedupByKey key l).map key).Pairwise (· ≠ ·) := by
  have hsorted' : (dedupByKey key l).Pairwise (fun a b => key a ≤ key b) :=
    List.Pairwise.sublist (dedupByKey_sublist key l) hsorted
  have hchainle : (dedupByKey key l).Chain' (fun a b => key a ≤ key b) :=
    hsorted'.chain'
  have hchainlt : (dedupByKey key l).Chain' (fun a b => key a < key b) := by
    have := chain'_conj hchainle (dedupByKey_chain' key l)
    exact this.imp fun {a b} hab => lt_of_le_of_ne hab.1 hab.2
  have hmap : (List.map key (dedupByKey key l)).Chain' (· < ·) :=
    (List.chain'_map key).mpr hchainlt
  have hpw : (List.map key (dedupByKey key l)).Pairwise (· < ·) :=
    List.chain'_iff_pairwise.mp hmap
  exact hpw.imp fun {a b} hab => ne_of_lt hab

/-- Sorting by key then deduplicating adjacent runs leaves pairwise-distinct
keys. -/
theorem sortDedup_pairwise_ne {α κ : Type} [LinearOrder κ] [DecidableEq κ] (key : α → κ)
    [DecidableRel (fun a b : α => key a ≤ key b)] (l : List α) :
    ((dedupByKey key (List.insertionSort (fun a b => key a ≤ key b) l)).map key).Pairwise
      (· ≠ ·) := by
  haveI : IsTotal α (fun a b => key a ≤ key b) := ⟨fun a b => le_total _ _⟩
  haveI : IsTrans α (fun a b => key a ≤ key b) := ⟨fun _ _ _ hab hbc => le_trans hab hbc⟩
  exact dedupByKey_pairwise_ne key _ (List.sorted_insertionSort _ l)

/-- The collected distribution list carries pairwise-distinct install
paths. -/
theorem uninstallTargets_pairwise (sp : UninstallSitePackages) (dryRun : Bool)
    (reqs : List UnresolvedReq) :
    ((uninstallTargets sp dryRun reqs).1.map Dist.installPath).Pairwise (· ≠ ·) := by
  unfold uninstallTargets
  rcases hn : collectNamed sp dryRun (uninstallNames reqs) with ⟨namedDists, namedWarnings⟩
  rcases hu : collectUrls sp dryRun (uninstallUrls reqs) with ⟨urlDists, urlWarnings⟩
  simp only [hn, hu]
  exact sortDedup_pairwise_ne Dist.installPath (namedDists ++ urlDists)

/-- The list handed to the uninstall loop carries pairwise-distinct install
paths. -/
theorem uninstallBody_uninstalled_pairwise (a : PipUninstallArgs)
    (o : PipUninstallOracles) :
    (((uninstallBody a o).uninstalled).map Dist.installPath).Pairwise (· ≠ ·) := by
  unfold uninstallBody
  cases hsp : o.sitePackages with
  | error e => simp
  | ok sp =>
    rcases ht : uninstallTargets sp a.dry_run a.requirements with ⟨dists, warnings⟩
    have hpw := uninstallTargets_pairwise sp a.dry_run a.requirements
    rw [ht] at hpw
    simp only at hpw
    simp only [ht]
    by_cases hd : dists.isEmpty
    · simp [hd]
    · simp only [hd, Bool.false_eq_true, if_false]
      by_cases hdry : a.dry_run
      · simp [hdry]
      · simp only [hdry, Bool.false_eq_true, if_false]
        cases hloop : uninstallLoop o.uninstallDist dists with
        | error e => exact hpw
        | ok _ => exact hpw

/-- C8: in `pip_uninstall`, the list of distributions passed to the uninstall
collaborator contains no two entries with the same install path (a package
listed both by name and by URL is uninstalled once), named requirements are
deduplicated by package name, and URL requirements by verbatim URL. -/
theorem uninstall_dedup_invariants (sp : UninstallSitePackages) (dryRun : Bool)
    (reqs : List UnresolvedReq) (a : PipUninstallArgs) (o : PipUninstallOracles) :
    ((uninstallTargets sp dryRun reqs).1.map Dist.installPath).Pairwise (· ≠ ·) ∧
    (((pipUninstall a o).uninstalled).map Dist.installPath).Pairwise (· ≠ ·) ∧
    (uninstallNames reqs).Nodup ∧
    (uninstallUrls reqs).Nodup := by
  refine ⟨uninstallTargets_pairwise sp dryRun reqs, ?_, ?_, ?_⟩
  · unfold pipUninstall
    cases hf : o.findEnvironment with
    | error e => simp
    | ok env0 =>
      cases hw : wrapEnv a.target a.prefix_dir o.targetInit o.prefixInit env0 with
      | error e => simp [hw]
      | ok env =>
        simp only [hw]
        cases hm : env.is_externally_managed with
        | some m =>
          simp only [hm]
          by_cases hb : a.break_system_packages
          · simp only [hb, if_true]
            exact uninstallBody_uninstalled_pairwise a o
          · simp [hb]
        | none =>
          simp only [hm]
          exact uninstallBody_uninstalled_pairwise a o
  · have := sortDedup_pairwise_ne (id : String → String) (namedNames reqs)
    simpa [uninstallNames, List.Nodup] using this
  · have := sortDedup_pairwise_ne (id : String → String) (unnamedUrls reqs)
    simpa [uninstallUrls, List.Nodup] using this

/-- The dedup loop with the identity key preserves membership of any value
other than the accumulator. -/
theorem mem_dedupByKeyAux_id {α : Type} [DecidableEq α] :
    ∀ (l : List α) (p x : α), x ≠ p → (x ∈ dedupByKeyAux id p l ↔ x ∈ l) := by
  intro l
  induction l with
  | nil => intro p x hxp; simp [dedupByKeyAux]
  | cons b rest ih =>
    intro p x hxp
    by_cases h : (id b : α) = p
    · rw [dedupByKeyAux, if_pos h]
      rw [ih p x hxp]
      simp only [List.mem_cons]
      constructor
      · exact Or.inr
      · rintro (hxb | hmem)
        · exact absurd (hxb.trans h) hxp
        · exact hmem
    · rw [dedupByKeyAux, if_neg h]
      simp only [id_eq] at h ⊢
      by_cases hxb : x = b
      · subst hxb
        simp
      · simp only [List.mem_cons]
        rw [ih b x hxb]

/-- Identity-keyed deduplication preserves membership. -/
theorem mem_dedupByKey_id {α : Type} [DecidableEq α] (l : List α) (x : α) :
    x ∈ dedupByKey id l ↔ x ∈ l := by
  cases l with
  | nil => simp [dedupByKey]
  | cons a rest =>
    rw [dedupByKey]
    simp only [id_eq]
    by_cases hxa : x = a
    · subst hxa
      simp
    · simp only [List.mem_cons]
      rw [mem_dedupByKeyAux_id rest a x hxa]

/-- A requested name survives into the sorted, deduplicated name list. -/
theorem mem_uninstallNames {reqs : List UnresolvedReq} {name : String}
    (h : UnresolvedReq.named name ∈ reqs) : name ∈ uninstallNames reqs := by
  unfold uninstallNames
  rw [mem_dedupByKey_id, List.mem_insertionSort]
  unfold namedNames
  exact List.mem_filterMap.mpr ⟨.named name, h, rfl⟩

/-- A requested URL survives into the sorted, deduplicated URL list. -/
theorem mem_uninstallUrls {reqs : List UnresolvedReq} {url : String}
    (h : UnresolvedReq.unnamed url ∈ reqs) : url ∈ uninstallUrls reqs := by
  unfold uninstallUrls
  rw [mem_dedupByKey_id, List.mem_insertionSort]
  unfold unnamedUrls
  exact List.mem_filterMap.mpr ⟨.unnamed url, h, rfl⟩

/-- Outside `--dry-run`, each name with no installed distribution contributes
its skipping warning to the name-collection loop. -/
theorem collectNamed_warning (sp : UninstallSitePackages) :
    ∀ (names : List String) (name : String), name ∈ names →
      sp.getPackages name = [] →
      skippingWarning name ∈ (collectNamed sp false names).2 := by
  intro names
  induction names with
  | nil => intro name hmem; cases hmem
  | cons p rest ih =>
    intro name hmem hempty
    rcases hcw : collectNamed sp false rest with ⟨ds, ws⟩
    rcases List.mem_cons.mp hmem with h | h
    · subst h
      rw [collectNamed, hcw, hempty]
      simp
    · rw [collectNamed, hcw]
      have hmem2 := ih name h hempty
      rw [hcw] at hmem2
      by_cases he : (sp.getPackages p).isEmpty
      · simp only [he, if_true]
        exact List.mem_cons_of_mem _ hmem2
      · simp only [he, Bool.false_eq_true, if_false]
        exact hmem2

/-- Outside `--dry-run`, each URL with no installed distribution contributes
its skipping warning to the URL-collection loop. -/
theorem collectUrls_warning (sp : UninstallSitePackages) :
    ∀ (urls : List String) (url : String), url ∈ urls →
      sp.getUrls url = [] →
      skippingWarning url ∈ (collectUrls sp false urls).2 := by
  intro urls
  induction urls with
  | nil => intro url hmem; cases hmem
  | cons p rest ih =>
    intro url hmem hempty
    rcases hcw : collectUrls sp false rest with ⟨ds, ws⟩
    rcases List.mem_cons.mp hmem with h | h
    · subst h
      rw [collectUrls, hcw, hempty]
      simp
    · rw [collectUrls, hcw]
      have hmem2 := ih url h hempty
      rw [hcw] at hmem2
      by_cases he : (sp.getUrls p).isEmpty
      · simp only [he, if_true]
        exact List.mem_cons_of_mem _ hmem2
      · simp only [he, Bool.false_eq_true, if_false]
        exact hmem2

/-- Every collection warning reaches the stderr of the uninstall body. -/
theorem uninstallBody_warning_mem (a : PipUninstallArgs) (o : PipUninstallOracles)
    (sp : UninstallSitePackages) (hsp : o.sitePackages = .ok sp) (w : String)
    (hw : w ∈ (uninstallTargets sp a.dry_run a.requirements).2) :
    w ∈ (uninstallBody a o).stderr := by
  rcases ht : uninstallTargets sp a.dry_run a.requirements with ⟨dists, warnings⟩
  rw [ht] at hw
  unfold uninstallBody
  simp only [hsp]
  rw [ht]
  by_cases hd : dists.isEmpty
  · simp only [hd, if_true]
    exact List.mem_append_left _ hw
  · simp only [hd, Bool.false_eq_true, if_false]
    by_cases hdry : a.dry_run
    · simp only [hdry, if_true]
      exact List.mem_append_left _ (List.mem_append_left _ hw)
    · simp only [hdry, Bool.false_eq_true, if_false]
      cases hloop : uninstallLoop o.uninstallDist dists with
      | error e => exact hw
      | ok _ => exact List.mem_append_left _ (List.mem_append_left _ hw)

/-- A run whose interpreter binding succeeds and whose externally-managed
policy does not abort reaches the uninstall body. -/
theorem pipUninstall_reaches_body (a : PipUninstallArgs) (o : PipUninstallOracles)
    (env0 env : Environment)
    (hfind : o.findEnvironment = .ok env0)
    (hwrap : wrapEnv a.target a.prefix_dir o.targetInit o.prefixInit env0 = .ok env)
    (hem : env.is_externally_managed = none ∨ a.break_system_packages = true) :
    pipUninstall a o = uninstallBody a o := by
  rcases hem with h | h
  · simp only [pipUninstall, hfind, hwrap, h]
  · cases hm : env.is_externally_managed with
    | none => simp only [pipUninstall, hfind, hwrap, hm]
    | some m => simp only [pipUninstall, hfind, hwrap, hm, h, if_true]

/-- C7 counterexample: under `--dry-run`, a requested package with no
installed distribution does NOT emit the skipping warning, and "No packages
to uninstall" is not printed either — the run prints "Would make no changes"
instead. -/
theorem uninstall_dry_run_suppresses_messages :
    (pipUninstall uArgsDryW uOracleW).stderr = ["Would make no changes"] ∧
    skippingWarning "missing-pkg" ∉ (pipUninstall uArgsDryW uOracleW).stderr ∧
    "warning: No packages to uninstall" ∉ (pipUninstall uArgsDryW uOracleW).stderr := by
  refine ⟨rfl, ?_, ?_⟩
  · decide
  · decide

/-- C7 (amended): for every `pip_uninstall` run outside `--dry-run`: each
requested package or URL with no installed distribution emits the warning
"Skipping X as it is not installed" to stderr and is not an error; and if no
distributions remain after collection, the command prints "No packages to
uninstall" and returns success.  (Under `--dry-run` these messages are
suppressed in favour of "Would make no changes".) -/
theorem uninstall_missing_is_warning_not_error
    (a : PipUninstallArgs) (o : PipUninstallOracles) (env0 env : Environment)
    (sp : UninstallSitePackages)
    (hfind : o.findEnvironment = .ok env0)
    (hwrap : wrapEnv a.target a.prefix_dir o.targetInit o.prefixInit env0 = .ok env)
    (hem : env.is_externally_managed = none ∨ a.break_system_packages = true)
    (hsp : o.sitePackages = .ok sp)
    (hdry : a.dry_run = false) :
    (∀ name, UnresolvedReq.named name ∈ a.requirements → sp.getPackages name = [] →
      skippingWarning name ∈ (pipUninstall a o).stderr) ∧
    (∀ url, UnresolvedReq.unnamed url ∈ a.requirements → sp.getUrls url = [] →
      skippingWarning url ∈ (pipUninstall a o).stderr) ∧
    ((uninstallTargets sp a.dry_run a.requirements).1 = [] →
      (pipUninstall a o).result = .ok .success ∧
      "warning: No packages to uninstall" ∈ (pipUninstall a o).stderr) := by
  have hb := pipUninstall_reaches_body a o env0 env hfind hwrap hem
  rw [hb]
  refine ⟨?_, ?_, ?_⟩
  · intro name hmem hempty
    apply uninstallBody_warning_mem a o sp hsp
    unfold uninstallTargets
    rcases hn : collectNamed sp a.dry_run (uninstallNames a.requirements) with ⟨nd, nw⟩
    rcases hu : collectUrls sp a.dry_run (uninstallUrls a.requirements) with ⟨ud, uw⟩
    simp only [hn, hu]
    apply List.mem_append_left
    have hwarn := collectNamed_warning sp (uninstallNames a.requirements) name
      (mem_uninstallNames hmem) hempty
    rw [hdry] at hn
    rw [hn] at hwarn
    exact hwarn
  · intro url hmem hempty
    apply uninstallBody_warning_mem a o sp hsp
    unfold uninstallTargets
    rcases hn : collectNamed sp a.dry_run (uninstallNames a.requirements) with ⟨nd, nw⟩
    rcases hu : collectUrls sp a.dry_run (uninstallUrls a.requirements) with ⟨ud, uw⟩
    simp only [hn, hu]
    apply List.mem_append_right
    have hwarn := collectUrls_warning sp (uninstallUrls a.requirements) url
      (mem_uninstallUrls hmem) hempty
    rw [hdry] at hu
    rw [hu] at hwarn
    exact hwarn
  · intro hempty
    rcases ht : uninstallTargets sp a.dry_run a.requirements with ⟨dists, warnings⟩
    rw [ht] at hempty
    simp only at hempty
    subst hempty
    unfold uninstallBody
    simp only [hsp]
    rw [ht]
    simp only [List.isEmpty_nil, if_true, hdry, Bool.false_eq_true, if_false]
    exact ⟨trivial, List.mem_append_right _ (List.mem_singleton.mpr rfl)⟩

/-- C7 witness: the concrete non-dry run warns about the missing package,
prints "No packages to uninstall", and exits successfully. -/
theorem uninstall_missing_is_warning_not_error_witness :
    skippingWarning "missing-pkg" ∈ (pipUninstall uArgsW uOracleW).stderr ∧
    (pipUninstall uArgsW uOracleW).result = .ok .success ∧
    "warning: No packages to uninstall" ∈ (pipUninstall uArgsW uOracleW).stderr :=
  ⟨(uninstall_missing_is_warning_not_error uArgsW uOracleW envW envW uSpEmptyW
      rfl rfl (Or.inl rfl) rfl rfl).1 "missing-pkg" (by decide) rfl,
   ((uninstall_missing_is_warning_not_error uArgsW uOracleW envW envW uSpEmptyW
      rfl rfl (Or.inl rfl) rfl rfl).2.2 rfl).1,
   ((uninstall_missing_is_warning_not_error uArgsW uOracleW envW envW uSpEmptyW
      rfl rfl (Or.inl rfl) rfl rfl).2.2 rfl).2⟩

end Uv
